import Mathlib

/-!
Shallow embedding of `scripts/ai_stress_report.py` (the AI stress-report
analysis pipeline) and proofs about the claims of its specification.

Modelling conventions:
* Python/JSON values are modelled by the inductive `JVal`; Python `dict`s are
  association lists with first-match lookup (Python dicts have unique keys).
* Python floats are modelled as exact rationals (`ℚ`); float rounding noise is
  outside the scope of the claims, which are about exact decimal constants.
* Python truthiness (`x or y`, `if not x`) is modelled by `JVal.truthy`.
* Functions are translated line by line from the source; comments cite the
  source line numbers of `scripts/ai_stress_report.py`.
* Reason/report strings are built with explicit decimal formatters mirroring
  the `f"{x:.4f}"` / `f"{x:.2%}"` / `f"{x}"` interpolations of the source.
-/

set_option autoImplicit false

set_option allowUnsafeReducibility true in
attribute [semireducible] Rat.mul Rat.inv Rat.add Rat.sub Rat.ofScientific

namespace StressReport

/-- JSON-like values: the payloads flowing through the pipeline. -/
inductive JVal where
  | null
  | jbool (b : Bool)
  | num (q : ℚ)
  | str (s : String)
  | arr (elems : List JVal)
  | obj (fields : List (String × JVal))

/-- Python truthiness of a JSON value (`bool(x)`). -/
def JVal.truthy : JVal → Bool
  | .null => false
  | .jbool b => b
  | .num q => q ≠ 0
  | .str s => s ≠ ""
  | .arr elems => !elems.isEmpty
  | .obj fields => !fields.isEmpty

/-- Test for the JSON object constructor (`isinstance(x, dict)`). -/
def JVal.isObj : JVal → Bool
  | .obj _ => true
  | _ => false

/-- Test for Python `None`. -/
def JVal.isNull : JVal → Bool
  | .null => true
  | _ => false

/-- Test for `isinstance(x, (int, float))`; Python `bool` is a subclass of
`int`, so booleans pass this test as well. -/
def JVal.isPyNum : JVal → Bool
  | .num _ => true
  | .jbool _ => true
  | _ => false

/-- Numeric value of a `JVal` passing `isPyNum` (`float(x)`): `True` is 1,
`False` is 0. Non-numeric values (where Python would raise) map to 0; all
uses are guarded by `isPyNum` or by claims restricted to numeric data. -/
def JVal.asNum : JVal → ℚ
  | .num q => q
  | .jbool b => if b then 1 else 0
  | _ => 0

/-- First-match lookup of a key in a JSON object; `none` when the value is
not an object (the source only reaches such lookups on objects) or the key
is absent. -/
def jLookup (j : JVal) (k : String) : Option JVal :=
  match j with
  | .obj fields => fields.lookup k
  | _ => none

/-- Python `d.get(k)`: `None` when absent. -/
def pyGet (j : JVal) (k : String) : JVal :=
  (jLookup j k).getD .null

/-- Python `d.get(k, default)`. -/
def pyGetD (j : JVal) (k : String) (default : JVal) : JVal :=
  (jLookup j k).getD default

/-- Python `x or y` on JSON values: `y` when `x` is falsy. -/
def pyOr (x y : JVal) : JVal :=
  if x.truthy then x else y

/-- Python `float(x)` applied to a possibly-numeric JSON value, as an
`Option`: strings are not parsed here (the source only applies this to
values that passed an `isinstance` check or to regex captures handled by
`pyParseFloat`). -/
def pyFloatOfNum (j : JVal) : Option ℚ :=
  if j.isPyNum then some j.asNum else none

/-! ### Static registries (source lines 146-155) -/

/-- Canonical write-heavy check names (source line 147,
`CANONICAL_WRITE_CHECKS`). -/
def CANONICAL_WRITE_CHECKS : List String :=
  ["create post status 201",
   "comment status ok",
   "friend request status acceptable",
   "dm send status acceptable"]

/-- Profile default failure-rate thresholds (source line 155,
`PROFILE_FAILURE_THRESHOLDS`). -/
def PROFILE_FAILURE_THRESHOLDS : List (String × ℚ) :=
  [("low", 5/100), ("medium", 8/100), ("high", 10/100),
   ("extreme", 12/100), ("insane", 15/100)]

/-- `PROFILE_FAILURE_THRESHOLDS.get(profile, 0.08)`. -/
def profileThresholdD (profile : String) : ℚ :=
  (PROFILE_FAILURE_THRESHOLDS.lookup profile).getD (8/100)

/-! ### Time window resolver (source lines 88-98, `parse_time_window`) -/

/-- Numeric value of a metadata field when `isinstance(x, (int, float))`
holds (booleans included, as in Python). -/
def asPyNum (j : JVal) : Option ℚ :=
  if j.isPyNum then some j.asNum else none

/-- Source lines 88-98: `parse_time_window`. Time instants are modelled as
rational epoch seconds; `now` stands for `utc_now()`. The window is the
declared `(start_epoch, end_epoch)` pair exactly when both are numbers with
`end_epoch > start_epoch`; otherwise `(now - fallback_minutes * 60, now)`. -/
def parse_time_window (metadata : JVal) (now : ℚ) (fallback_minutes : ℚ) : ℚ × ℚ :=
  match asPyNum (pyGet metadata "start_epoch"), asPyNum (pyGet metadata "end_epoch") with
  | some s, some e =>
      if e > s then (s, e) else (now - fallback_minutes * 60, now)
  | _, _ => (now - fallback_minutes * 60, now)

/-! ### Signal extractor (source lines 229-250, `extract_k6_highlights`) -/

/-- Fixed set of optional numeric highlights derived from the k6 summary. -/
structure Highlights where
  http_req_duration_p95_ms : Option ℚ
  http_req_failed_rate : Option ℚ
  checks_pass_rate : Option ℚ
  iterations : Option ℚ
  vus_max : Option ℚ
deriving Repr, DecidableEq

/-- Source lines 232-242: the inner `metric_value` helper of
`extract_k6_highlights`. -/
def metric_value (metrics : JVal) (metricName field : String) : Option ℚ :=
  let metric := pyGetD metrics metricName (.obj [])
  let values := pyGet metric "values"
  let value : JVal := if values.isObj then pyGet values field else .null
  let value : JVal := if value.isNull && metric.isObj then pyGet metric field else value
  if value.isPyNum then some value.asNum else none

/-- Python `x or y` where both operands are `float | None` (an absent value
or the float it holds): `0.0` is falsy, so a zero first operand falls
through to the second. -/
def pyOrNum (x y : Option ℚ) : Option ℚ :=
  match x with
  | some q => if q ≠ 0 then some q else y
  | none => y

/-- Source lines 229-250: `extract_k6_highlights`. -/
def extract_k6_highlights (summary : JVal) : Highlights :=
  let metrics := if summary.isObj then pyGetD summary "metrics" (.obj []) else .obj []
  { http_req_duration_p95_ms := metric_value metrics "http_req_duration" "p(95)"
    http_req_failed_rate :=
      pyOrNum (metric_value metrics "http_req_failed" "rate")
              (metric_value metrics "http_req_failed" "value")
    checks_pass_rate :=
      pyOrNum (metric_value metrics "checks" "rate")
              (metric_value metrics "checks" "value")
    iterations := metric_value metrics "iterations" "count"
    vus_max := metric_value metrics "vus_max" "value" }

/-! ### Threshold parsing (source lines 253-269,
`_parse_failure_threshold_from_summary`)

The regex `rate\s*<\s*([\d.]+)` (IGNORECASE) has no backtracking interplay:
`\s*` is followed by a non-whitespace literal and `[\d.]+` is final, so a
deterministic leftmost-greedy scanner is exactly equivalent to `re.search`.
`\s`/`\d` are modelled over ASCII (the summaries are machine-produced ASCII
JSON). -/

/-- Characters matched by the regex `\s` (ASCII). -/
def isPySpace (c : Char) : Bool :=
  c = ' ' || c = '\t' || c = '\n' || c = '\x0d' || c = '\x0b' || c = '\x0c'

/-- Characters matched by the character class `[\d.]`. -/
def digitsDot (c : Char) : Bool :=
  c.isDigit || c = '.'

/-- Case-insensitive literal match of `pat` at the head of `cs`, returning
the rest (for the `rate` literal of the regex under `re.IGNORECASE`). -/
def stripCI (pat : List Char) (cs : List Char) : Option (List Char) :=
  match pat, cs with
  | [], rest => some rest
  | _ :: _, [] => none
  | p :: ps, c :: cs => if c.toLower = p then stripCI ps cs else none

/-- Match `rate\s*<\s*([\d.]+)` anchored at the head of `cs`, returning the
capture group. -/
def matchRateLtAt (cs : List Char) : Option (List Char) := do
  let rest ← stripCI ['r', 'a', 't', 'e'] cs
  let rest := rest.dropWhile isPySpace
  match rest with
  | '<' :: rest2 =>
      let rest3 := rest2.dropWhile isPySpace
      let cap := rest3.takeWhile digitsDot
      if cap.isEmpty then none else some cap
  | _ => none

/-- Leftmost occurrence scan of `matchRateLtAt` over a list of characters. -/
def searchRateLtAux : List Char → Option String
  | [] => none
  | c :: cs =>
      match matchRateLtAt (c :: cs) with
      | some cap => some (String.mk cap)
      | none => searchRateLtAux cs

/-- `re.search(r"rate\s*<\s*([\d.]+)", expr, re.IGNORECASE)`, returning the
capture group of the leftmost match. -/
def searchRateLt (s : String) : Option String :=
  searchRateLtAux s.data

/-- Numeric value of a list of decimal digits. -/
def natOfDigits (cs : List Char) : ℕ :=
  cs.foldl (fun a c => a * 10 + (c.toNat - 48)) 0

/-- Python `float(s)` for the strings the regex capture can produce
(characters drawn from `[\d.]`): defined exactly when the string has at
least one digit and at most one dot, in which case it denotes the obvious
decimal. Other strings raise `ValueError` in the source, modelled as
`none`. -/
def pyParseFloat (s : String) : Option ℚ :=
  let cs := s.data
  if cs.all digitsDot && cs.any Char.isDigit && (cs.filter (· = '.')).length ≤ 1 then
    let ip := cs.takeWhile (· ≠ '.')
    let fp := (cs.dropWhile (· ≠ '.')).drop 1
    some ((natOfDigits ip : ℚ) + (natOfDigits fp : ℚ) / (10 : ℚ) ^ fp.length)
  else
    none

/-- Source lines 253-269: `_parse_failure_threshold_from_summary`. Walks the
`http_req_failed` thresholds dict and returns the first expression whose
regex capture parses as a float (`ValueError` falls through to the next
expression, line 267-268). Keys of a Python dict are strings, so the
`isinstance(expr, str)` guard (line 261) is always true here. -/
def parse_failure_threshold_from_summary (summary : JVal) : Option ℚ :=
  let metrics := pyOr (pyGetD summary "metrics" (.obj [])) (.obj [])
  let m := pyOr (pyGet metrics "http_req_failed") (.obj [])
  let thresholds := pyOr (pyGet m "thresholds") (.obj [])
  match thresholds with
  | .obj kvs => kvs.findSome? (fun p => (searchRateLt p.1).bind pyParseFloat)
  | _ => none

/-! ### Per-check extraction (source lines 272-287,
`_extract_root_group_checks`) -/

/-- Per-check record `{passes, fails, pass_rate}` derived from the summary. -/
structure CheckRec where
  passes : ℚ
  fails : ℚ
  pass_rate : ℚ
deriving Repr, DecidableEq

/-- Count read `data.get("passes", 0) or 0` (source lines 282-283): absent,
`None`, `False` and `0` all yield 0; `True` yields 1. Truthy non-numeric
values make the source raise on `passes + fails`; they are modelled as 0 and
are outside the claims, which concern numeric counts. -/
def countVal (data : JVal) (key : String) : ℚ :=
  (pyOr (pyGetD data key (.num 0)) (.num 0)).asNum

/-- Source lines 272-287: `_extract_root_group_checks`. Returns the ordered
association list check name ↦ `{passes, fails, pass_rate}`; non-dict check
entries are skipped (line 280-281). -/
def extract_root_group_checks (summary : JVal) : List (String × CheckRec) :=
  let root := pyOr (pyGet summary "root_group") (.obj [])
  let checks := pyOr (pyGet root "checks") (.obj [])
  match checks with
  | .obj kvs =>
      kvs.filterMap (fun p =>
        match p.2 with
        | .obj _ =>
            let passes := countVal p.2 "passes"
            let fails := countVal p.2 "fails"
            let total := passes + fails
            let pass_rate := if total ≠ 0 then passes / total else 1
            some (p.1, ⟨passes, fails, pass_rate⟩)
        | _ => none)
  | _ => []

/-! ### Rate-limit signal builder (source lines 290-341,
`build_rate_limit_signals`) -/

/-- Entry of the Loki payload's `entries` list (source lines 174-183 and
212-214): a log line with its labels, tagged by the query that produced it. -/
structure LokiEntry where
  timestamp_ns : String
  line : String
  labels : List (String × String)
  category : String
deriving Repr, DecidableEq

/-- The queries/entries portion of the Loki collector payload (source lines
190-198); the window metadata is carried separately as strings. -/
structure LokiPayload where
  window_start : String
  window_end : String
  query_names : List (String × String × Nat)
  entries : List LokiEntry
deriving Repr, DecidableEq

/-- A `critical_write_checks` record (source lines 319-321): the per-check
record enriched with its `check_name`. -/
structure CriticalCheck where
  check_name : String
  passes : ℚ
  fails : ℚ
  pass_rate : ℚ
deriving Repr, DecidableEq

/-- The `rate_limit_signals` bundle (source lines 335-341). -/
structure RateLimitSignals where
  http_req_failed_rate : Option ℚ
  http_req_failed_threshold : ℚ
  loki_rate_limit_entry_count : Nat
  critical_write_checks : List CriticalCheck
  likely_rate_limited_endpoints : List String
deriving Repr, DecidableEq

/-- Source lines 296-304: extraction of the observed failure rate from the
summary (`values.rate or values.value`, falling back to a top-level numeric
`value`); the final `float(...)` raises on truthy non-numeric values, which
are modelled as `none` and are outside the claims. -/
def extractFailedRate (summary : JVal) : Option ℚ :=
  let metrics := pyOr (pyGetD summary "metrics" (.obj [])) (.obj [])
  let http_failed := pyOr (pyGet metrics "http_req_failed") (.obj [])
  let values := pyGet http_failed "values"
  let fr0 : JVal := if values.isObj then pyOr (pyGet values "rate") (pyGet values "value") else .null
  let fr1 : JVal :=
    if fr0.isNull && (pyGet http_failed "value").isPyNum then pyGet http_failed "value" else fr0
  if fr1.isNull then none else pyFloatOfNum fr1

/-- Source lines 316-323: the loop over `CANONICAL_WRITE_CHECKS` collecting
the present records and the names of severely constrained checks
(`pass_rate < 0.20`); `scanStep` is the body of the loop. -/
def scanStep (per_check : List (String × CheckRec))
    (acc : List CriticalCheck × List String) (name : String) :
    List CriticalCheck × List String :=
  match per_check.lookup name with
  | none => acc
  | some rec =>
      (acc.1 ++ [⟨name, rec.passes, rec.fails, rec.pass_rate⟩],
       if rec.pass_rate < 20/100 then acc.2 ++ [name] else acc.2)

/-- Source lines 316-323 (continued): the fold of `scanStep` over the
canonical names. -/
def writeCheckScan (per_check : List (String × CheckRec)) :
    List CriticalCheck × List String :=
  CANONICAL_WRITE_CHECKS.foldl (scanStep per_check) ([], [])

/-- Source lines 325-333: the endpoint inference chain mapping severely
constrained canonical checks to their fixed endpoints, in source order. -/
def inferEndpoints (severely : List String) : List String :=
  (if severely.contains "create post status 201" then ["POST /api/posts"] else []) ++
  (if severely.contains "comment status ok" then ["POST /api/posts/:id/comments"] else []) ++
  (if severely.contains "friend request status acceptable" then ["POST /api/friends/requests/:id"] else []) ++
  (if severely.contains "dm send status acceptable" then ["POST /api/conversations/:id/messages"] else [])

/-- Source lines 290-341: `build_rate_limit_signals`. -/
def build_rate_limit_signals (summary : JVal) (profile : String)
    (loki_payload : LokiPayload) : RateLimitSignals :=
  let failed_rate := extractFailedRate summary
  let threshold :=
    match parse_failure_threshold_from_summary summary with
    | some t => t
    | none => profileThresholdD profile
  let rate_limit_entries := loki_payload.entries.filter (fun e => e.category = "rate_limit")
  let per_check := extract_root_group_checks summary
  let scan := writeCheckScan per_check
  { http_req_failed_rate := failed_rate
    http_req_failed_threshold := threshold
    loki_rate_limit_entry_count := rate_limit_entries.length
    critical_write_checks := scan.1
    likely_rate_limited_endpoints := inferEndpoints scan.2 }

/-! ### String formatting helpers

The source interpolates floats with `f"{x:.4f}"`, `f"{x:.2%}"`, `f"{x:.1%}"`
and `f"{x}"`. These are modelled over `ℚ` with round-half-even (Python's
float formatting rounding), exact on the decimal constants of the claims. -/

/-- Left-pad a numeral string with zeros to the given width. -/
def padZeros (width : ℕ) (s : String) : String :=
  String.mk (List.replicate (width - s.length) '0') ++ s

/-- Round to the nearest integer, ties to even (Python float formatting). -/
def roundHalfEven (q : ℚ) : ℤ :=
  let fl := ⌊q⌋
  let frac := q - fl
  if frac > 1/2 then fl + 1
  else if frac < 1/2 then fl
  else if fl % 2 = 0 then fl else fl + 1

/-- Python `f"{q:.precf}"`. -/
def fmtFixed (prec : ℕ) (q : ℚ) : String :=
  let scaled := |q| * (10 : ℚ) ^ prec
  let n := (roundHalfEven scaled).toNat
  let ip := n / 10 ^ prec
  let fp := n % 10 ^ prec
  (if q < 0 then "-" else "") ++ toString ip ++
    (if prec = 0 then "" else "." ++ padZeros prec (toString fp))

/-- Python `f"{q:.prec%}"`: fixed-point of `q * 100` followed by `%`. -/
def fmtPercent (prec : ℕ) (q : ℚ) : String :=
  fmtFixed prec (q * 100) ++ "%"

/-- Python `f"{q}"` (`str(float)`) for decimally-representable rationals:
the shortest decimal expansion, with integers printed as `n.0` as Python
does. Rationals with no finite decimal expansion cannot arise from Python
floats; they fall back to the raw rational rendering. -/
def pyFloatRepr (q : ℚ) : String :=
  match (List.range 18).find? (fun k => (|q| * (10 : ℚ) ^ k).den = 1) with
  | some k =>
      let n := (|q| * (10 : ℚ) ^ k).num.toNat
      let sign := if q < 0 then "-" else ""
      if k = 0 then sign ++ toString n ++ ".0"
      else
        let ip := n / 10 ^ k
        let fp := n % 10 ^ k
        sign ++ toString ip ++ "." ++ padZeros k (toString fp)
  | none => toString q

/-- Python `"sep".join(parts)`. -/
def pyJoin (sep : String) : List String → String
  | [] => ""
  | [x] => x
  | x :: y :: xs => x ++ sep ++ pyJoin sep (y :: xs)

/-- Concatenation of string segments: an f-string template is the
concatenation of its literal and interpolated segments. -/
def concatAll : List String → String
  | [] => ""
  | x :: xs => x ++ concatAll xs

/-- Python `html.escape(s, quote=True)` (source uses `html.escape`). -/
def htmlEscapeChar (c : Char) : String :=
  if c = '&' then "&amp;"
  else if c = '<' then "&lt;"
  else if c = '>' then "&gt;"
  else if c = '"' then "&quot;"
  else if c = '\x27' then "&#x27;"
  else String.mk [c]

/-- Python `html.escape` over a whole string. -/
def htmlEscape (s : String) : String :=
  concatAll (s.data.map htmlEscapeChar)

/-! ### Data source health and the analysis record -/

/-- `SourceHealth` (`{"status": ..., "error": ...}` dicts of the source). -/
structure Health where
  status : String
  error : String
deriving Repr, DecidableEq

/-- Health value `{"status": "ok", "error": ""}`. -/
def Health.ok : Health := ⟨"ok", ""⟩

/-- The analysis record: the typed view of the model-output/fallback dict as
read and written by the pipeline (`status`, `summary`, the four string
lists, `confidence`, and the fields attached by `main` and
`apply_status_policy`). Optional fields are `none` when the key is absent. -/
structure Analysis where
  status : Option String := none
  summary : Option String := none
  findings : List String := []
  bottlenecks : List String := []
  likely_causes : List String := []
  next_actions : List String := []
  confidence : Option ℚ := none
  k6_highlights : Option Highlights := none
  deterministic_status : Option String := none
  deterministic_reasons : List String := []
  rate_limit_signals : Option RateLimitSignals := none
  data_source_health : List (String × Health) := []
  profile : Option String := none
  run_dir : Option String := none
  generated_at : Option String := none
deriving Repr, DecidableEq

/-! ### Status policy engine (source lines 364-397, `apply_status_policy`) -/

/-- Source line 384: `severity_order = {"HEALTHY": 0, "WARNING": 1,
"CRITICAL": 2}`. -/
def severity_order : List (String × ℕ) :=
  [("HEALTHY", 0), ("WARNING", 1), ("CRITICAL", 2)]

/-- `severity_order.get(s, 0)`. -/
def severity (s : String) : ℕ :=
  (severity_order.lookup s).getD 0

/-- Source line 376: the reason recorded when the failure rate exceeds the
threshold: `f"http_req_failed rate {failed_rate:.4f} exceeds profile
threshold {threshold}"`. -/
def rateReason (failed_rate threshold : ℚ) : String :=
  "http_req_failed rate " ++ fmtFixed 4 failed_rate ++
    " exceeds profile threshold " ++ pyFloatRepr threshold

/-- Source line 382: the reason recorded for a severely constrained write
check: `f"Write check '{name}' pass rate {pass_rate:.2%} < 20%"`. -/
def checkReason (name : String) (pass_rate : ℚ) : String :=
  "Write check \x27" ++ name ++ "\x27 pass rate " ++ fmtPercent 2 pass_rate ++ " < 20%"

/-- Source lines 370-382: the deterministic severity pass. Starts at
`HEALTHY`; escalates to `CRITICAL` when the observed failure rate exceeds
the effective threshold, and again for every critical write check with pass
rate below 20%, accumulating reasons in order. The effective threshold is
`rate_limit_signals.get("http_req_failed_threshold") or
PROFILE_FAILURE_THRESHOLDS.get(profile, 0.08)` (line 372): Python `or`
replaces a zero threshold by the profile default. `detStep` is the body of
the loop of lines 378-382. -/
def detStep (acc : String × List String) (rec : CriticalCheck) : String × List String :=
  if rec.pass_rate < 20/100 then
    ("CRITICAL", acc.2 ++ [checkReason rec.check_name rec.pass_rate])
  else acc

/-- Source lines 370-382 (continued): the deterministic severity pass,
folding `detStep` over the critical write checks. -/
def deterministicPass (rls : RateLimitSignals) (profile : String) :
    String × List String :=
  let threshold :=
    if rls.http_req_failed_threshold ≠ 0 then rls.http_req_failed_threshold
    else profileThresholdD profile
  let init : String × List String :=
    match rls.http_req_failed_rate with
    | some r =>
        if r > threshold then ("CRITICAL", [rateReason r threshold])
        else ("HEALTHY", [])
    | none => ("HEALTHY", [])
  rls.critical_write_checks.foldl detStep init

/-- Python `s.upper()` (ASCII, as everywhere in this embedding): upper-case
every character. -/
def pyUpper (s : String) : String :=
  String.mk (s.data.map Char.toUpper)

/-- Source lines 386-387: `if model_status not in severity_order:
model_status = "WARNING"`. -/
def recognizedOr (u : String) : String :=
  if (severity_order.lookup u).isSome then u else "WARNING"

/-- Source lines 385-387: the model-reported status, defaulting to
`WARNING` when absent, empty (Python `or`) or not one of the three
recognized levels after upper-casing. -/
def normalize_model_status (st : Option String) : String :=
  let s :=
    match st with
    | some s => if s ≠ "" then s else "WARNING"
    | none => "WARNING"
  recognizedOr (pyUpper s)

/-- Source line 388: the merge of the model status with the deterministic
status under the severity order. -/
def merge_status (model det : String) : String :=
  if severity model ≥ severity det then model else det

/-- Source line 392: the synthesized finding appended when the
deterministic policy fires. -/
def deterministicFinding (reasons : List String) : String :=
  "Deterministic policy: " ++ pyJoin "; " reasons ++ ". Likely cause: rate limiting (429)."

/-- Source lines 364-397: `apply_status_policy`. -/
def apply_status_policy (model_analysis : Analysis) (rls : RateLimitSignals)
    (profile : String) : Analysis :=
  let pass := deterministicPass rls profile
  let deterministic_status := pass.1
  let reasons := pass.2
  let model_status := normalize_model_status model_analysis.status
  let final_status := merge_status model_status deterministic_status
  let findings :=
    if deterministic_status = "CRITICAL" && final_status = "CRITICAL" && !reasons.isEmpty then
      model_analysis.findings ++ [deterministicFinding reasons]
    else model_analysis.findings
  { model_analysis with
    findings := findings
    deterministic_status := some deterministic_status
    deterministic_reasons := reasons
    rate_limit_signals := some rls
    status := some final_status }

/-! ### Fallback analysis (source lines 458-474, `default_ai_analysis`) -/

/-- Source lines 458-474: `default_ai_analysis`. The findings list the
degraded sources (`f"{k}: {v.get('error')}"` for every non-ok health with a
non-empty error). -/
def default_ai_analysis (profile : String) (health_map : List (String × Health))
    (highlights : Highlights) : Analysis :=
  let errors := health_map.filterMap
    (fun p => if p.2.status ≠ "ok" && p.2.error ≠ "" then some (p.1 ++ ": " ++ p.2.error) else none)
  { status := some (if errors.isEmpty then "HEALTHY" else "WARNING")
    summary := some ("Fallback analysis for " ++ profile ++ " profile. Partial data was used.")
    findings :=
      if errors.isEmpty then
        ["No major data-source failures detected during report generation."]
      else errors
    bottlenecks := []
    likely_causes := []
    next_actions :=
      ["Verify Prometheus/Loki/Ollama connectivity before next run.",
       "Review k6 summary metrics in summary.json for precise thresholds."]
    confidence := some (if errors.isEmpty then 6/10 else 35/100)
    k6_highlights := some highlights }

/-! ### Report renderers (source lines 477-751)

Renderer inputs that the source obtains impurely (`utc_now().isoformat()`)
are passed as the explicit `now` argument. Literal `{`/`}` characters of
the templates are written with their escape codes. -/

/-- Source lines 477-480: `format_float` (`"N/A"` for non-numbers). -/
def format_float (value : Option ℚ) (digits : ℕ) : String :=
  match value with
  | some q => fmtFixed digits q
  | none => "N/A"

/-- Rendering `str(x)` of a scalar JSON value (used for metadata fields,
which are strings in every produced artifact). -/
def jAsStr (j : JVal) : String :=
  match j with
  | .str s => s
  | .num q => pyFloatRepr q
  | .jbool b => if b then "True" else "False"
  | .null => "None"
  | _ => ""

/-- Source lines 614-617 (and 737-744): `section_items` of the Markdown
renderer: `- None` for an empty list, else one `- item` line per item. -/
def section_items (items : List String) : String :=
  if items.isEmpty then "- None"
  else pyJoin "\n" (items.map (fun it => "- " ++ it))

/-- Source lines 483-489: `_fmt_rate_limit_checks_md`. -/
def fmt_rate_limit_checks_md (rls : Option RateLimitSignals) : String :=
  let checks := match rls with | some r => r.critical_write_checks | none => []
  if checks.isEmpty then "- None"
  else pyJoin "\n" (checks.map (fun c => "- " ++ c.check_name ++ ": " ++ fmtPercent 1 c.pass_rate))

/-- Source lines 514-515, 539-540: `"".join(<li>…</li> per item) or
"<li>None</li>"` (empty-string falsiness). -/
def li_items (items : List String) : String :=
  let joined := concatAll (items.map (fun it => "<li>" ++ htmlEscape it ++ "</li>"))
  if joined = "" then "<li>None</li>" else joined

/-- Source lines 508-512: one data-source health row of the HTML table. -/
def healthRowHtml (p : String × Health) : String :=
  "<tr><td>" ++ htmlEscape p.1 ++ "</td><td>" ++ htmlEscape p.2.status ++
    "</td><td>" ++ htmlEscape p.2.error ++ "</td></tr>"

/-- Source lines 526-538: the critical-write-check table of the HTML
report (`<p>` fallback when no canonical write checks are present). -/
def rateLimitTableHtml (checks : List CriticalCheck) : String :=
  let rows := concatAll (checks.map (fun c =>
    "<tr><td>" ++ htmlEscape c.check_name ++ "</td><td>" ++
      htmlEscape (fmtPercent 1 c.pass_rate) ++ "</td></tr>"))
  if checks.isEmpty then "<p>No canonical write checks in summary.</p>"
  else "<table><thead><tr><th>Check</th><th>Pass rate</th></tr></thead><tbody>" ++
    rows ++ "</tbody></table>"

/-- Source lines 517-518: the bounded Loki sample block (first 20 lines,
escaped; fallback text when empty). -/
def lokiBlockHtml (entries : List LokiEntry) : String :=
  let block := pyJoin "\n" ((entries.take 20).map (fun e => htmlEscape e.line))
  if block = "" then "No matching log lines." else block

/-- Source lines 492-599: `render_report_html`, as the concatenation of the
f-string template's segments. -/
def render_report_html (run_dir profile : String) (metadata : JVal)
    (health_map : List (String × Health)) (highlights : Highlights)
    (analysis : Analysis) (loki : LokiPayload) (now : String) : String :=
  let title := "Sanctum AI Stress Report - " ++ profile
  let status := analysis.status.getD "WARNING"
  let rlsOpt := analysis.rate_limit_signals
  let critical_checks := match rlsOpt with | some r => r.critical_write_checks | none => []
  let endpoints := match rlsOpt with | some r => r.likely_rate_limited_endpoints | none => []
  let loki429 := match rlsOpt with | some r => r.loki_rate_limit_entry_count | none => 0
  concatAll
    ["<!doctype html>\n<html lang=\"en\">\n<head>\n  <meta charset=\"utf-8\" />\n  <meta name=\"viewport\" content=\"width=device-width, initial-scale=1\" />\n  <title>",
     htmlEscape title,
     "</title>\n  <style>\n    :root \x7b\n      --bg: #0b1020;\n      --panel: #121a2f;\n      --text: #ecf2ff;\n      --muted: #9fb1d6;\n      --good: #3ccf91;\n      --warn: #ffb020;\n      --bad: #ff5d6c;\n      --edge: #293a66;\n    \x7d\n    body \x7b margin:0; font-family: ui-sans-serif, system-ui, -apple-system, Segoe UI, sans-serif; background: radial-gradient(circle at top right, #16203d, var(--bg)); color: var(--text); \x7d\n    main \x7b max-width: 1120px; margin: 0 auto; padding: 28px 16px 40px; \x7d\n    .grid \x7b display:grid; grid-template-columns: repeat(auto-fit, minmax(260px, 1fr)); gap: 12px; \x7d\n    .card \x7b background: var(--panel); border: 1px solid var(--edge); border-radius: 12px; padding: 14px; \x7d\n    h1, h2 \x7b margin: 0 0 10px; \x7d\n    p \x7b margin: 6px 0; color: var(--muted); \x7d\n    table \x7b width:100%; border-collapse: collapse; \x7d\n    td, th \x7b border-bottom: 1px solid var(--edge); padding: 8px; text-align: left; font-size: 14px; \x7d\n    pre \x7b white-space: pre-wrap; background:#0a0f1e; border:1px solid var(--edge); padding:12px; border-radius:10px; max-height:320px; overflow:auto; \x7d\n    .status-HEALTHY \x7b color: var(--good); \x7d\n    .status-WARNING \x7b color: var(--warn); \x7d\n    .status-CRITICAL \x7b color: var(--bad); \x7d\n  </style>\n</head>\n<body>\n  <main>\n    <h1>",
     htmlEscape title,
     "</h1>\n    <p>Generated: ",
     htmlEscape now,
     " | Run dir: ",
     htmlEscape run_dir,
     "</p>\n\n    <div class=\"grid\">\n      <section class=\"card\"><h2>Status</h2><p class=\"status-",
     htmlEscape status,
     "\"><strong>",
     htmlEscape status,
     "</strong></p><p>",
     htmlEscape (analysis.summary.getD "No summary provided"),
     "</p></section>\n      <section class=\"card\"><h2>Run Metadata</h2><p>Profile: ",
     htmlEscape profile,
     "</p><p>Start: ",
     htmlEscape (jAsStr (pyGetD metadata "start_utc" (.str "N/A"))),
     "</p><p>End: ",
     htmlEscape (jAsStr (pyGetD metadata "end_utc" (.str "N/A"))),
     "</p></section>\n      <section class=\"card\"><h2>k6 Highlights</h2><p>P95 latency (ms): ",
     format_float highlights.http_req_duration_p95_ms 2,
     "</p><p>HTTP failed rate: ",
     format_float highlights.http_req_failed_rate 5,
     "</p><p>Checks pass rate: ",
     format_float highlights.checks_pass_rate 5,
     "</p></section>\n    </div>\n\n    <section class=\"card\" style=\"margin-top:12px\"><h2>Data Source Health</h2><table><thead><tr><th>Source</th><th>Status</th><th>Error</th></tr></thead><tbody>",
     concatAll (health_map.map healthRowHtml),
     "</tbody></table></section>\n\n    <section class=\"grid\" style=\"margin-top:12px\">\n      <div class=\"card\">",
     "<h2>Findings</h2><ul>",
     li_items analysis.findings,
     "</ul>",
     "</div>\n      <div class=\"card\">",
     "<h2>Next Actions</h2><ul>",
     li_items analysis.next_actions,
     "</ul>",
     "</div>\n    </section>\n\n    <section class=\"card\" style=\"margin-top:12px\"><h2>Deterministic Status Policy</h2><p><strong>",
     htmlEscape (analysis.deterministic_status.getD "—"),
     "</strong></p><ul>",
     li_items analysis.deterministic_reasons,
     "</ul></section>\n\n    <section class=\"card\" style=\"margin-top:12px\"><h2>Rate Limit Signals</h2><p>Loki 429/rate-limit sample count: <strong>",
     toString loki429,
     "</strong></p>",
     rateLimitTableHtml critical_checks,
     "<p><strong>Likely rate-limited endpoints:</strong></p><ul>",
     li_items endpoints,
     "</ul></section>\n\n    <section class=\"card\" style=\"margin-top:12px\"><h2>Loki Sample (Errors/Warnings and Rate-Limit 429s)</h2><pre>",
     lokiBlockHtml loki.entries,
     "</pre></section>\n  </main>\n</body>\n</html>\n"]

/-- Source lines 619-623: one health line of the Markdown report. -/
def healthLineMd (p : String × Health) : String :=
  "- `" ++ p.1 ++ "`: **" ++ p.2.status ++ "**" ++
    (if p.2.error ≠ "" then " - " ++ p.2.error else "")

/-- Source lines 601-672: `render_report_markdown`, as the concatenation of
the f-string template's segments. -/
def render_report_markdown (run_dir profile : String) (metadata : JVal)
    (health_map : List (String × Health)) (highlights : Highlights)
    (analysis : Analysis) (now : String) : String :=
  let rlsOpt := analysis.rate_limit_signals
  let endpoints := match rlsOpt with | some r => r.likely_rate_limited_endpoints | none => []
  let loki429 := match rlsOpt with | some r => r.loki_rate_limit_entry_count | none => 0
  concatAll
    ["# Sanctum AI Stress Report (", profile, ")\n\n",
     "- Generated: ", now, "\n",
     "- Run Dir: `", run_dir, "`\n",
     "- Status: **", analysis.status.getD "WARNING", "**\n",
     "- Summary: ", analysis.summary.getD "No summary provided", "\n\n",
     "## k6 Highlights\n\n",
     "- P95 latency (ms): ", format_float highlights.http_req_duration_p95_ms 2, "\n",
     "- HTTP failed rate: ", format_float highlights.http_req_failed_rate 5, "\n",
     "- Checks pass rate: ", format_float highlights.checks_pass_rate 5, "\n",
     "- Iterations: ", format_float highlights.iterations 0, "\n",
     "- Max VUs: ", format_float highlights.vus_max 0, "\n\n",
     "## Run Window\n\n",
     "- Profile: `", profile, "`\n",
     "- Start: `", jAsStr (pyGetD metadata "start_utc" (.str "N/A")), "`\n",
     "- End: `", jAsStr (pyGetD metadata "end_utc" (.str "N/A")), "`\n\n",
     "## Deterministic Status Policy Result\n\n",
     "- **Status:** ", analysis.deterministic_status.getD "—", "\n",
     "- **Reasons:** ", section_items analysis.deterministic_reasons, "\n\n",
     "## Rate Limit Signals\n\n",
     "- Loki 429/rate-limit entry count: ", toString loki429, "\n",
     "- Critical write checks (pass rate): ", fmt_rate_limit_checks_md rlsOpt, "\n",
     "- Likely rate-limited endpoints: ", section_items endpoints, "\n\n",
     "## Data Source Health\n\n",
     pyJoin "\n" (health_map.map healthLineMd), "\n\n",
     "## Findings\n", section_items analysis.findings, "\n\n",
     "## Bottlenecks\n", section_items analysis.bottlenecks, "\n\n",
     "## Likely Causes\n", section_items analysis.likely_causes, "\n\n",
     "## Next Actions\n", section_items analysis.next_actions, "\n"]

/-- Source lines 737-745: the `append_list` blocks of the plain-text
renderer: a blank line, the title, then `- None` or one `- item` line per
item. -/
def blockLines (title : String) (items : List String) : List String :=
  ["", title] ++ (if items.isEmpty then ["- None"] else items.map (fun it => "- " ++ it))

/-- Source lines 730-735: one data-source health line of the text report. -/
def healthLineTxt (p : String × Health) : String :=
  "- " ++ p.1 ++ ": " ++ p.2.status ++
    (if p.2.error ≠ "" then " (" ++ p.2.error ++ ")" else "")

/-- Source lines 675-751: `render_report_text`; the mutated `lines` list is
assembled as one list concatenation and joined with newlines. -/
def render_report_text (run_dir profile : String) (metadata : JVal)
    (health_map : List (String × Health)) (highlights : Highlights)
    (analysis : Analysis) (now : String) : String :=
  let rlsOpt := analysis.rate_limit_signals
  let critical_checks := match rlsOpt with | some r => r.critical_write_checks | none => []
  let endpoints := match rlsOpt with | some r => r.likely_rate_limited_endpoints | none => []
  let loki429 := match rlsOpt with | some r => r.loki_rate_limit_entry_count | none => 0
  let lines : List String :=
    ["SANCTUM AI STRESS REPORT (" ++ profile ++ ")",
     String.mk (List.replicate 48 '='),
     "Generated: " ++ now,
     "Run Dir: " ++ run_dir,
     "Status: " ++ analysis.status.getD "WARNING",
     "Summary: " ++ analysis.summary.getD "No summary provided",
     "",
     "Deterministic Status Policy Result",
     "- Status: " ++ analysis.deterministic_status.getD "—"] ++
    analysis.deterministic_reasons.map (fun r => "- " ++ r) ++
    ["",
     "Rate Limit Signals",
     "- Loki 429/rate-limit entry count: " ++ toString loki429] ++
    (if critical_checks.isEmpty then ["- No canonical write checks in summary."] else []) ++
    critical_checks.map (fun c => "- " ++ c.check_name ++ ": " ++ fmtPercent 1 c.pass_rate) ++
    ["Likely rate-limited endpoints:"] ++
    endpoints.map (fun ep => "- " ++ ep) ++
    (if endpoints.isEmpty then ["- None"] else []) ++
    ["",
     "k6 Highlights",
     "- P95 latency (ms): " ++ format_float highlights.http_req_duration_p95_ms 2,
     "- HTTP failed rate: " ++ format_float highlights.http_req_failed_rate 5,
     "- Checks pass rate: " ++ format_float highlights.checks_pass_rate 5,
     "- Iterations: " ++ format_float highlights.iterations 0,
     "- Max VUs: " ++ format_float highlights.vus_max 0,
     "",
     "Run Window",
     "- Profile: " ++ profile,
     "- Start: " ++ jAsStr (pyGetD metadata "start_utc" (.str "N/A")),
     "- End: " ++ jAsStr (pyGetD metadata "end_utc" (.str "N/A")),
     "",
     "Data Source Health"] ++
    health_map.map healthLineTxt ++
    blockLines "Findings" analysis.findings ++
    blockLines "Bottlenecks" analysis.bottlenecks ++
    blockLines "Likely Causes" analysis.likely_causes ++
    blockLines "Next Actions" analysis.next_actions
  pyJoin "\n" lines ++ "\n"

/-! ### Source collectors and pipeline core (source lines 22-31, 126-226,
804-876)

Network calls are modelled by `fetch` functions whose `Except` result stands
for either the decoded response or the text of the raised
`requests.RequestException`; `main`'s file reads become explicit arguments.
The assessment requester is modelled at its boundary: `modelParsed` is
`some a` when `call_ollama` yielded a non-empty parsed object and `none`
when it yielded `{}` (in which case the source marks its health degraded). -/

/-- Source lines 22-31: `DEFAULT_PROM_QUERIES`. -/
def DEFAULT_PROM_QUERIES : List (String × String) :=
  [("request_rate_rps", "sum(rate(http_requests_total[1m]))"),
   ("error_rate_ratio", "sum(rate(http_requests_total\x7bstatus=~\"5..\"\x7d[1m])) / clamp_min(sum(rate(http_requests_total[1m])), 1)"),
   ("p95_latency_seconds", "histogram_quantile(0.95, sum by (le) (rate(http_request_duration_seconds_bucket[5m])))"),
   ("active_websockets", "sanctum_active_websockets"),
   ("ws_connections_total", "sanctum_websocket_connections_total"),
   ("ws_backpressure_drops_5m", "increase(sanctum_websocket_backpressure_drops_total[5m])"),
   ("db_p95_seconds", "histogram_quantile(0.95, sum by (le) (rate(sanctum_database_query_latency_seconds_bucket[5m])))"),
   ("message_throughput_rps", "sum(rate(sanctum_message_throughput_total[1m]))")]

/-- One per-query entry of the Prometheus payload (source lines 131-141). -/
structure PromEntry where
  expr : String
  range : Option JVal
  instant : Option JVal
  error : Option String

/-- Source lines 126-143: `collect_prometheus`. Each query's failure is
recorded on its entry and flips the collector health to degraded without
aborting the remaining queries. -/
def collect_prometheus (fetch : String → Except String (JVal × JVal)) :
    List (String × PromEntry) × Health :=
  DEFAULT_PROM_QUERIES.foldl
    (fun acc p =>
      match fetch p.2 with
      | .ok r => (acc.1 ++ [(p.1, ⟨p.2, some r.1, some r.2, none⟩)], acc.2)
      | .error e =>
          (acc.1 ++ [(p.1, ⟨p.2, none, none, some e⟩)],
           ⟨"degraded", "Prometheus query failure: " ++ e⟩))
    ([], Health.ok)

/-- A Loki entry as returned by `_loki_query_range` before the caller adds
its category (source lines 174-183). -/
structure LokiRaw where
  timestamp_ns : String
  line : String
  labels : List (String × String)
deriving Repr, DecidableEq

/-- Source line 187: the severity query expression. -/
def severityQuery : String :=
  "\x7bcontainer=~\".+\"\x7d |~ \"(?i)(error|warn|panic|fatal)\""

/-- Source line 188: the rate-limit query expression. -/
def rateLimitQuery : String :=
  "\x7bcontainer=~\".+\"\x7d |= \"request processed\" |= \"status=429\""

/-- Source lines 186-216: `collect_loki`. Both fixed queries run in order;
a failing query contributes an empty entry set and degrades health; each
returned entry is tagged with the query's name as its category. -/
def collect_loki (window_start window_end : String)
    (fetch : String → Except String (List LokiRaw)) : LokiPayload × Health :=
  let res := [("severity", severityQuery), ("rate_limit", rateLimitQuery)].foldl
    (fun (acc : List (String × String × Nat) × List LokiEntry × Health) q =>
      match fetch q.2 with
      | .ok part =>
          (acc.1 ++ [(q.1, q.2, part.length)],
           acc.2.1 ++ part.map (fun e => ⟨e.timestamp_ns, e.line, e.labels, q.1⟩),
           acc.2.2)
      | .error e =>
          (acc.1 ++ [(q.1, q.2, 0)], acc.2.1,
           ⟨"degraded", "Loki query failure: " ++ e⟩))
    ([], [], Health.ok)
  ({ window_start := window_start, window_end := window_end,
     query_names := res.1, entries := res.2.1 }, res.2.2)

/-- Source lines 219-226: `read_k6_summary`. `content` is the decoded
`summary.json` (`none` when the file is missing or invalid, in which case
`read_json_file` yields the `{}` default); a falsy summary degrades
health with the path in the error. -/
def read_k6_summary (content : Option JVal) (path : String) : JVal × Health :=
  let summary := content.getD (.obj [])
  if !summary.truthy then (summary, ⟨"degraded", "Missing or invalid " ++ path⟩)
  else (summary, Health.ok)

/-- The per-run artifacts produced by one pipeline invocation: the
persisted analysis record and the three rendered report documents. -/
structure PipelineOutput where
  analysis : Analysis
  report_html : String
  report_md : String
  report_txt : String

/-- Source lines 804-876: the pure core of `main` after the run directory
and time window are resolved: collect the three sources, build highlights
and rate-limit signals, fall back to `default_ai_analysis` when the model
produced no usable output, apply the status policy, and render the three
report documents. -/
def pipeline_core (summaryFile : Option JVal) (summaryPath : String)
    (metadata : JVal) (profile : String)
    (promFetch : String → Except String (JVal × JVal))
    (lokiFetch : String → Except String (List LokiRaw))
    (modelParsed : Option Analysis) (ollamaHealth : Health)
    (run_dir now windowStart windowEnd : String) : PipelineOutput :=
  let sk := read_k6_summary summaryFile summaryPath
  let summary := sk.1
  let k6_health := sk.2
  let highlights := extract_k6_highlights summary
  let prom := collect_prometheus promFetch
  let lokik := collect_loki windowStart windowEnd lokiFetch
  let rls := build_rate_limit_signals summary profile lokik.1
  let health_map := [("k6", k6_health), ("prometheus", prom.2),
                     ("loki", lokik.2), ("ollama", ollamaHealth)]
  let analysis0 :=
    match modelParsed with
    | some a => a
    | none => default_ai_analysis profile health_map highlights
  let analysis1 :=
    { analysis0 with
      data_source_health := health_map
      profile := some profile
      run_dir := some run_dir
      generated_at := some now
      rate_limit_signals := some rls }
  let analysis := apply_status_policy analysis1 rls profile
  { analysis := analysis
    report_html := render_report_html run_dir profile metadata health_map highlights analysis lokik.1 now
    report_md := render_report_markdown run_dir profile metadata health_map highlights analysis now
    report_txt := render_report_text run_dir profile metadata health_map highlights analysis now }

/-! ## Generic helper notions and lemmas -/

/-- Occurrence of `needle` as a contiguous substring of `hay`. -/
def strOccurs (hay needle : String) : Prop :=
  ∃ a c : String, hay = a ++ needle ++ c

/-- Occurrence of `part` as a contiguous run of elements of `whole`. -/
def listOccurs {α : Type} (whole part : List α) : Prop :=
  ∃ s t, whole = s ++ part ++ t

lemma concatAll_append (xs ys : List String) :
    concatAll (xs ++ ys) = concatAll xs ++ concatAll ys := by
  induction xs with
  | nil => simp [concatAll]
  | cons x xs ih => simp [concatAll, ih, String.append_assoc]

lemma strOccurs_concat_tail {l : List String} {n : String} (x : String)
    (h : strOccurs (concatAll l) n) : strOccurs (concatAll (x :: l)) n := by
  obtain ⟨a, c, e⟩ := h
  exact ⟨x ++ a, c, by simp [concatAll, e, String.append_assoc]⟩

lemma strOccurs_concat_head2 (x y : String) (l : List String) :
    strOccurs (concatAll (x :: y :: l)) (x ++ y) :=
  ⟨"", concatAll l, by simp [concatAll, String.append_assoc]⟩

lemma strOccurs_concat_head3 (x y z : String) (l : List String) :
    strOccurs (concatAll (x :: y :: z :: l)) (x ++ y ++ z) :=
  ⟨"", concatAll l, by simp [concatAll, String.append_assoc]⟩

lemma pyJoin_cons {sep x : String} {xs : List String} (h : xs ≠ []) :
    pyJoin sep (x :: xs) = x ++ sep ++ pyJoin sep xs := by
  cases xs with
  | nil => exact absurd rfl h
  | cons y ys => rfl

lemma pyJoin_append_left {sep : String} (xs : List String) {ys : List String}
    (hy : ys ≠ []) : ∃ a, pyJoin sep (xs ++ ys) = a ++ pyJoin sep ys := by
  induction xs with
  | nil => exact ⟨"", by simp⟩
  | cons x xs ih =>
      obtain ⟨a, ha⟩ := ih
      have hne : xs ++ ys ≠ [] := by
        intro h; exact hy (List.append_eq_nil.mp h).2
      refine ⟨x ++ sep ++ a, ?_⟩
      rw [List.cons_append, pyJoin_cons hne, ha]
      simp [String.append_assoc]

lemma pyJoin_append_right {sep : String} {xs : List String} (ys : List String)
    (hx : xs ≠ []) : ∃ c, pyJoin sep (xs ++ ys) = pyJoin sep xs ++ c := by
  induction xs with
  | nil => exact absurd rfl hx
  | cons x xs ih =>
      cases hxs : xs with
      | nil =>
          subst hxs
          cases ys with
          | nil => exact ⟨"", by simp⟩
          | cons y ys' =>
              exact ⟨sep ++ pyJoin sep (y :: ys'),
                by rw [List.singleton_append, pyJoin_cons (by simp), pyJoin,
                       String.append_assoc]⟩
      | cons x2 xs2 =>
          subst hxs
          obtain ⟨c, hc⟩ := ih (by simp)
          refine ⟨c, ?_⟩
          rw [List.cons_append, pyJoin_cons (by simp), hc,
              @pyJoin_cons sep x (x2 :: xs2) (by simp)]
          simp [String.append_assoc]

lemma strOccurs_pyJoin {sep : String} {whole part : List String}
    (hocc : listOccurs whole part) (hne : part ≠ []) :
    strOccurs (pyJoin sep whole) (pyJoin sep part) := by
  obtain ⟨s, t, rfl⟩ := hocc
  obtain ⟨c, hc⟩ := @pyJoin_append_right sep part t hne
  obtain ⟨a, ha⟩ := @pyJoin_append_left sep s (part ++ t)
    (by intro h; exact hne (List.append_eq_nil.mp h).1)
  refine ⟨a, c, ?_⟩
  rw [List.append_assoc, ha, hc]
  simp [String.append_assoc]

lemma strOccurs_append_right {hay n : String} (y : String)
    (h : strOccurs hay n) : strOccurs (hay ++ y) n := by
  obtain ⟨a, c, rfl⟩ := h
  exact ⟨a, c ++ y, by simp [String.append_assoc]⟩

lemma append_ne_empty_of_left {s : String} (hs : s ≠ "") (t : String) :
    s ++ t ≠ "" := by
  intro h
  apply hs
  have hd := congrArg String.data h
  rw [String.data_append] at hd
  exact String.ext (List.append_eq_nil.mp hd).1

/-! ## Lemmas about the status policy engine -/

lemma recognizedOr_mem (u : String) :
    recognizedOr u = "HEALTHY" ∨ recognizedOr u = "WARNING" ∨
      recognizedOr u = "CRITICAL" := by
  by_cases h1 : u = "HEALTHY"
  · subst h1; left; decide
  by_cases h2 : u = "WARNING"
  · subst h2; right; left; decide
  by_cases h3 : u = "CRITICAL"
  · subst h3; right; right; decide
  have e1 : (u == "HEALTHY") = false := beq_eq_false_iff_ne.mpr h1
  have e2 : (u == "WARNING") = false := beq_eq_false_iff_ne.mpr h2
  have e3 : (u == "CRITICAL") = false := beq_eq_false_iff_ne.mpr h3
  right; left
  simp [recognizedOr, severity_order, List.lookup, e1, e2, e3]

lemma normalize_model_status_mem (st : Option String) :
    normalize_model_status st = "HEALTHY" ∨ normalize_model_status st = "WARNING" ∨
      normalize_model_status st = "CRITICAL" :=
  recognizedOr_mem _

lemma merge_status_critical (st : Option String) :
    merge_status (normalize_model_status st) "CRITICAL" = "CRITICAL" := by
  rcases normalize_model_status_mem st with h | h | h <;>
    simp [merge_status, h, severity, severity_order, List.lookup]

lemma detStep_critical {l : List CriticalCheck} {acc : String × List String}
    (h : acc.1 = "CRITICAL") : (l.foldl detStep acc).1 = "CRITICAL" := by
  induction l generalizing acc with
  | nil => exact h
  | cons c cs ih =>
      simp only [List.foldl_cons]
      unfold detStep
      split
      · exact ih rfl
      · exact ih h

lemma detStep_reasons_mono {l : List CriticalCheck} {acc : String × List String}
    {r : String} (h : r ∈ acc.2) : r ∈ (l.foldl detStep acc).2 := by
  induction l generalizing acc with
  | nil => exact h
  | cons c cs ih =>
      simp only [List.foldl_cons]
      unfold detStep
      split
      · exact ih (by simp [h])
      · exact ih h

lemma detStep_reason_of_mem {l : List CriticalCheck} {acc : String × List String}
    {c : CriticalCheck} (hc : c ∈ l) (hr : c.pass_rate < 20/100) :
    (l.foldl detStep acc).1 = "CRITICAL" ∧
      checkReason c.check_name c.pass_rate ∈ (l.foldl detStep acc).2 := by
  induction l generalizing acc with
  | nil => cases hc
  | cons x xs ih =>
      rcases List.mem_cons.mp hc with rfl | hmem
      · simp only [List.foldl_cons]
        unfold detStep
        rw [if_pos hr]
        exact ⟨detStep_critical rfl, detStep_reasons_mono (by simp)⟩
      · simpa using ih hmem

lemma scan_sev_aux (pc : List (String × CheckRec)) (l : List String)
    (acc : List CriticalCheck × List String) (name : String) :
    name ∈ (l.foldl (scanStep pc) acc).2 ↔
      name ∈ acc.2 ∨ (name ∈ l ∧ ∃ rec, pc.lookup name = some rec ∧ rec.pass_rate < 20/100) := by
  induction l generalizing acc with
  | nil => simp
  | cons x xs ih =>
      rw [List.foldl_cons, ih]
      unfold scanStep
      rcases hx : pc.lookup x with _ | rec
      · simp only [List.mem_cons]
        constructor
        · rintro (h | ⟨h, e⟩)
          · exact .inl h
          · exact .inr ⟨.inr h, e⟩
        · rintro (h | ⟨h | h, e⟩)
          · exact .inl h
          · subst h
            obtain ⟨rec, hrec, _⟩ := e
            rw [hx] at hrec
            cases hrec
          · exact .inr ⟨h, e⟩
      · by_cases hlt : rec.pass_rate < 20/100
        · have hE : name = x → ∃ r, pc.lookup name = some r ∧ r.pass_rate < 20/100 :=
            fun h => ⟨rec, by rw [h, hx], hlt⟩
          simp only [if_pos hlt, List.mem_append, List.mem_cons, List.not_mem_nil,
            or_false, List.mem_singleton]
          constructor
          · rintro ((h | h) | ⟨h, e⟩)
            · exact .inl h
            · exact .inr ⟨.inl h, hE h⟩
            · exact .inr ⟨.inr h, e⟩
          · rintro (h | ⟨h | h, e⟩)
            · exact .inl (.inl h)
            · exact .inl (.inr h)
            · exact .inr ⟨h, e⟩
        · have hNE : name = x → ¬∃ r, pc.lookup name = some r ∧ r.pass_rate < 20/100 := by
            rintro rfl ⟨r, hr, hrlt⟩
            rw [hx] at hr
            cases hr
            exact hlt hrlt
          simp only [if_neg hlt, List.mem_cons]
          constructor
          · rintro (h | ⟨h, e⟩)
            · exact .inl h
            · exact .inr ⟨.inr h, e⟩
          · rintro (h | ⟨h | h, e⟩)
            · exact .inl h
            · exact absurd e (hNE h)
            · exact .inr ⟨h, e⟩

lemma scan_sev_mem_iff (pc : List (String × CheckRec)) (name : String) :
    name ∈ (writeCheckScan pc).2 ↔
      name ∈ CANONICAL_WRITE_CHECKS ∧
        ∃ rec, pc.lookup name = some rec ∧ rec.pass_rate < 20/100 := by
  rw [writeCheckScan, scan_sev_aux]
  simp

lemma scan_cw_mono (pc : List (String × CheckRec)) {l : List String}
    {acc : List CriticalCheck × List String} {c : CriticalCheck}
    (h : c ∈ acc.1) : c ∈ (l.foldl (scanStep pc) acc).1 := by
  induction l generalizing acc with
  | nil => exact h
  | cons x xs ih =>
      rw [List.foldl_cons]
      apply ih
      unfold scanStep
      rcases pc.lookup x with _ | rec
      · exact h
      · simp [h]

lemma scan_cw_mem (pc : List (String × CheckRec)) {l : List String}
    {acc : List CriticalCheck × List String} {name : String} {rec : CheckRec}
    (hl : name ∈ l) (hrec : pc.lookup name = some rec) :
    (⟨name, rec.passes, rec.fails, rec.pass_rate⟩ : CriticalCheck) ∈
      (l.foldl (scanStep pc) acc).1 := by
  induction l generalizing acc with
  | nil => cases hl
  | cons x xs ih =>
      rcases List.mem_cons.mp hl with rfl | hmem
      · rw [List.foldl_cons]
        apply scan_cw_mono
        unfold scanStep
        rw [hrec]
        simp
      · rw [List.foldl_cons]
        exact ih hmem

lemma scan_cw_src (pc : List (String × CheckRec)) {l : List String}
    {acc : List CriticalCheck × List String} {c : CriticalCheck}
    (h : c ∈ (l.foldl (scanStep pc) acc).1) :
    c ∈ acc.1 ∨ (c.check_name ∈ l ∧
      pc.lookup c.check_name = some ⟨c.passes, c.fails, c.pass_rate⟩) := by
  induction l generalizing acc with
  | nil => exact .inl h
  | cons x xs ih =>
      rw [List.foldl_cons] at h
      rcases ih h with h' | ⟨hn, hrec⟩
      · unfold scanStep at h'
        rcases hx : pc.lookup x with _ | rec
        · rw [hx] at h'
          exact .inl h'
        · rw [hx] at h'
          rcases List.mem_append.mp h' with h'' | h''
          · exact .inl h''
          · rcases List.mem_singleton.mp h''
            exact .inr ⟨List.mem_cons_self x xs, by simpa using hx⟩
      · exact .inr ⟨List.mem_cons_of_mem x hn, hrec⟩

lemma mem_inferEndpoints_posts (sev : List String)
    (h : "POST /api/posts" ∈ inferEndpoints sev) :
    "create post status 201" ∈ sev := by
  unfold inferEndpoints at h
  by_cases h1 : sev.contains "create post status 201"
  · simpa using h1
  · exfalso
    rw [if_neg h1] at h
    split_ifs at h <;> simp_all

lemma notmem_inferEndpoints (sev : List String) (name endpoint : String)
    (hmap : (name, endpoint) ∈
      [("create post status 201", "POST /api/posts"),
       ("comment status ok", "POST /api/posts/:id/comments"),
       ("friend request status acceptable", "POST /api/friends/requests/:id"),
       ("dm send status acceptable", "POST /api/conversations/:id/messages")])
    (hout : name ∉ sev) : endpoint ∉ inferEndpoints sev := by
  intro hin
  apply hout
  unfold inferEndpoints at hin
  have hc : ∀ n : String, sev.contains n = true → n ∈ sev :=
    fun n hn => by simpa using hn
  fin_cases hmap <;>
    · split_ifs at hin with h1 h2 h3 h4 <;>
        first
          | (exact hc _ (by assumption))
          | simp_all

/-! ## Shared concrete fixtures for witnesses and counterexamples -/

/-- An empty Loki payload (no entries, no recorded queries). -/
def emptyLokiPayload : LokiPayload := ⟨"", "", [], []⟩

/-- A run summary whose `http_req_failed` rate is the number `0.0` and which
carries no `value` alternate. -/
def zeroRateSummary : JVal :=
  .obj [("metrics", .obj [("http_req_failed", .obj [("values", .obj [("rate", .num 0)])])])]

/-- Run metadata carrying its window as ISO-8601 timestamp strings. -/
def isoMetadata : JVal :=
  .obj [("start_epoch", .str "2024-01-01T00:00:00Z"),
        ("end_epoch", .str "2024-01-01T01:00:00Z")]

/-- Run metadata carrying its window as numeric epoch seconds. -/
def numMetadata : JVal :=
  .obj [("start_epoch", .num 100), ("end_epoch", .num 200)]

/-! ## Claim theorems -/

/-- C1: status merge is monotonic. For every analysis, signal bundle and
profile, `apply_status_policy` records the deterministic status `D`
computed by the deterministic pass, sets the final status to the
(normalized, `WARNING`-defaulted) model status `M` exactly when
`severity M ≥ severity D` and to `D` otherwise, and the final status is
never less severe than `D`. -/
theorem C1_status_merge_monotonic (a : Analysis) (rls : RateLimitSignals)
    (profile : String) :
    (apply_status_policy a rls profile).deterministic_status
        = some (deterministicPass rls profile).1 ∧
    (apply_status_policy a rls profile).status
        = some (merge_status (normalize_model_status a.status)
            (deterministicPass rls profile).1) ∧
    merge_status (normalize_model_status a.status) (deterministicPass rls profile).1
        = (if severity (normalize_model_status a.status)
              ≥ severity (deterministicPass rls profile).1
           then normalize_model_status a.status
           else (deterministicPass rls profile).1) ∧
    severity (deterministicPass rls profile).1
        ≤ severity (merge_status (normalize_model_status a.status)
            (deterministicPass rls profile).1) := by
  refine ⟨by simp [apply_status_policy], by simp [apply_status_policy], rfl, ?_⟩
  unfold merge_status
  split_ifs with h
  · exact h
  · exact le_refl _

/-- C7 (code bug): the signal extractor is claimed to return the numeric
value under the first alternate key holding a number, and `null` exactly
when neither alternate holds one — in particular `0.0` under `"rate"`
should yield `0.0`. The code chains the alternates with Python `or`, for
which the number `0.0` is falsy: on this summary the `"rate"` field holds
the number `0.0` (`metric_value` finds it), no `"value"` alternate exists,
and `extract_k6_highlights` nevertheless reports `none`. -/
theorem C7_rate_zero_yields_none :
    (JVal.num 0).isPyNum = true ∧
    metric_value (pyGetD zeroRateSummary "metrics" (.obj []))
        "http_req_failed" "rate" = some 0 ∧
    (extract_k6_highlights zeroRateSummary).http_req_failed_rate = none := by
  refine ⟨rfl, rfl, rfl⟩

/-- C8 (amended): the time window resolver always succeeds; it returns the
declared `(start_epoch, end_epoch)` pair verbatim exactly when both are
present as numbers (epoch seconds) with `end > start`, and otherwise the
fallback window ending at `now` and starting `fm` minutes earlier. ISO
timestamp strings are not recognized (see the counterexample). -/
theorem C8_time_window_resolver (metadata : JVal) (now fm : ℚ) :
    (∀ s e : ℚ, asPyNum (pyGet metadata "start_epoch") = some s →
        asPyNum (pyGet metadata "end_epoch") = some e → e > s →
        parse_time_window metadata now fm = (s, e)) ∧
    ((asPyNum (pyGet metadata "start_epoch") = none ∨
        asPyNum (pyGet metadata "end_epoch") = none ∨
        (∃ s e : ℚ, asPyNum (pyGet metadata "start_epoch") = some s ∧
          asPyNum (pyGet metadata "end_epoch") = some e ∧ e ≤ s)) →
      parse_time_window metadata now fm = (now - fm * 60, now)) := by
  constructor
  · intro s e hs he hgt
    unfold parse_time_window
    rw [hs, he]
    show (if e > s then (s, e) else (now - fm * 60, now)) = (s, e)
    rw [if_pos hgt]
  · intro h
    unfold parse_time_window
    rcases hs : asPyNum (pyGet metadata "start_epoch") with _ | s
    · rfl
    rcases he : asPyNum (pyGet metadata "end_epoch") with _ | e
    · rfl
    rcases h with h | h | ⟨s', e', hs', he', hle⟩
    · rw [hs] at h; cases h
    · rw [he] at h; cases h
    · rw [hs] at hs'
      rw [he] at he'
      cases hs'
      cases he'
      show (if e > s then (s, e) else (now - fm * 60, now)) = (now - fm * 60, now)
      rw [if_neg (not_lt.mpr hle)]

/-- Witness for C8 at concrete metadata: a numeric window is returned
verbatim, and the ISO-timestamp metadata falls back. -/
theorem C8_time_window_resolver_witness :
    asPyNum (pyGet numMetadata "start_epoch") = some 100 ∧
    asPyNum (pyGet numMetadata "end_epoch") = some 200 ∧
    (200 : ℚ) > 100 ∧
    parse_time_window numMetadata 1000 10 = (100, 200) ∧
    asPyNum (pyGet isoMetadata "start_epoch") = none ∧
    parse_time_window isoMetadata 1000 10 = (1000 - 10 * 60, 1000) :=
  ⟨rfl, rfl, by norm_num,
   (C8_time_window_resolver numMetadata 1000 10).1 100 200 rfl rfl (by norm_num),
   rfl,
   (C8_time_window_resolver isoMetadata 1000 10).2 (Or.inl rfl)⟩

/-- C8 (counterexample to the claim as stated): on metadata whose start and
end instants are both present as ISO-8601 timestamp strings (with end after
start), the resolver does not return the declared pair — it returns the
fallback window `(now - 600, now)`, because only numeric `start_epoch` and
`end_epoch` fields are recognized. -/
theorem C8_iso_timestamps_cex :
    (jLookup isoMetadata "start_epoch").isSome = true ∧
    (jLookup isoMetadata "end_epoch").isSome = true ∧
    parse_time_window isoMetadata 1000 10 = (1000 - 10 * 60, 1000) :=
  ⟨rfl, rfl, rfl⟩

/-- A run summary observing failure rate `0.05` while declaring the
threshold expression `rate<0` (which parses to the float `0.0`). -/
def zeroThresholdSummary : JVal :=
  .obj [("metrics", .obj [("http_req_failed", .obj [
    ("values", .obj [("rate", .num (1/20))]),
    ("thresholds", .obj [("rate<0", .obj [])])])])]

/-- A signal bundle with rate `0.12` against threshold `0.08`. -/
def rlsExceed : RateLimitSignals := ⟨some (12/100), 8/100, 0, [], []⟩

/-- C2 (amended): for every signal bundle whose observed failure rate is
present and exceeds its threshold, provided the threshold is nonzero (a
zero threshold is falsy in Python and is replaced by the profile default —
see the counterexample), the deterministic status is CRITICAL, a recorded
reason string contains both the observed rate (formatted `%.4f`) and the
threshold (formatted by `str`), and the final merged status is CRITICAL
regardless of the model-reported status. -/
theorem C2_failure_rate_escalates (a : Analysis) (rls : RateLimitSignals)
    (profile : String) (r : ℚ)
    (hr : rls.http_req_failed_rate = some r)
    (h0 : rls.http_req_failed_threshold ≠ 0)
    (hgt : r > rls.http_req_failed_threshold) :
    (apply_status_policy a rls profile).deterministic_status = some "CRITICAL" ∧
    (apply_status_policy a rls profile).status = some "CRITICAL" ∧
    ∃ reason ∈ (apply_status_policy a rls profile).deterministic_reasons,
      strOccurs reason (fmtFixed 4 r) ∧
      strOccurs reason (pyFloatRepr rls.http_req_failed_threshold) := by
  have hpass : deterministicPass rls profile
      = rls.critical_write_checks.foldl detStep
          ("CRITICAL", [rateReason r rls.http_req_failed_threshold]) := by
    simp only [deterministicPass, hr]
    rw [if_pos h0, if_pos hgt]
  have hcrit : (deterministicPass rls profile).1 = "CRITICAL" := by
    rw [hpass]; exact detStep_critical rfl
  have hmem : rateReason r rls.http_req_failed_threshold
      ∈ (deterministicPass rls profile).2 := by
    rw [hpass]; exact detStep_reasons_mono (by simp)
  refine ⟨?_, ?_, ?_⟩
  · simp [apply_status_policy, hcrit]
  · simp only [apply_status_policy]
    rw [hcrit, merge_status_critical]
  · refine ⟨rateReason r rls.http_req_failed_threshold, ?_, ?_, ?_⟩
    · simpa [apply_status_policy] using hmem
    · exact ⟨"http_req_failed rate ",
        " exceeds profile threshold " ++ pyFloatRepr rls.http_req_failed_threshold,
        by simp [rateReason, String.append_assoc]⟩
    · exact ⟨"http_req_failed rate " ++ fmtFixed 4 r ++ " exceeds profile threshold ",
        "", by simp [rateReason, String.append_assoc]⟩

/-- Witness for C2 at a bundle with rate `0.12` against threshold `0.08`. -/
theorem C2_failure_rate_escalates_witness :
    rlsExceed.http_req_failed_rate = some (12/100) ∧
    rlsExceed.http_req_failed_threshold ≠ 0 ∧
    (12/100 : ℚ) > rlsExceed.http_req_failed_threshold ∧
    ((apply_status_policy {} rlsExceed "medium").deterministic_status = some "CRITICAL" ∧
     (apply_status_policy {} rlsExceed "medium").status = some "CRITICAL" ∧
     ∃ reason ∈ (apply_status_policy {} rlsExceed "medium").deterministic_reasons,
       strOccurs reason (fmtFixed 4 (12/100)) ∧
       strOccurs reason (pyFloatRepr rlsExceed.http_req_failed_threshold)) :=
  ⟨rfl, by norm_num [rlsExceed], by norm_num [rlsExceed],
   C2_failure_rate_escalates {} rlsExceed "medium" (12/100) rfl
     (by norm_num [rlsExceed]) (by norm_num [rlsExceed])⟩

/-- C2 (counterexample to the claim as stated): a summary can declare the
threshold expression `rate<0`, making the bundle's resolved threshold the
float `0.0`; the observed rate `0.05` exceeds it, yet the deterministic
status stays HEALTHY, because `apply_status_policy` re-resolves the
threshold with Python `or` and a zero threshold falls back to the profile
default `0.08`. -/
theorem C2_zero_threshold_cex :
    (build_rate_limit_signals zeroThresholdSummary "medium" emptyLokiPayload).http_req_failed_rate
        = some (1/20) ∧
    (build_rate_limit_signals zeroThresholdSummary "medium" emptyLokiPayload).http_req_failed_threshold
        = 0 ∧
    (1/20 : ℚ) > 0 ∧
    (apply_status_policy {}
        (build_rate_limit_signals zeroThresholdSummary "medium" emptyLokiPayload)
        "medium").deterministic_status = some "HEALTHY" ∧
    (apply_status_policy {}
        (build_rate_limit_signals zeroThresholdSummary "medium" emptyLokiPayload)
        "medium").status ≠ some "CRITICAL" := by
  refine ⟨rfl, rfl, by norm_num, rfl, by decide⟩

/-- C3: every check record derived from the run summary's per-check counts
has `pass_rate = passes / (passes + fails)` when the total is positive, and
`pass_rate = 1` exactly when the total is zero. -/
theorem C3_check_pass_rate (summary : JVal) (name : String) (rec : CheckRec)
    (h : (name, rec) ∈ extract_root_group_checks summary) :
    (0 < rec.passes + rec.fails →
      rec.pass_rate = rec.passes / (rec.passes + rec.fails)) ∧
    (rec.passes + rec.fails = 0 → rec.pass_rate = 1) := by
  simp only [extract_root_group_checks] at h
  rcases hck : pyOr (pyGet (pyOr (pyGet summary "root_group") (JVal.obj [])) "checks")
      (JVal.obj []) with _ | b | q | s | elems | kvs <;> rw [hck] at h
  all_goals try exact absurd h (List.not_mem_nil _)
  obtain ⟨p, hp, hf⟩ := List.mem_filterMap.mp h
  rcases hd : p.2 with _ | b | q | s | elems | fields <;> rw [hd] at hf
  all_goals try exact Option.noConfusion hf
  have hrec := congrArg Prod.snd (Option.some.inj hf)
  subst hrec
  constructor
  · intro hpos
    exact if_pos (ne_of_gt hpos)
  · intro hz
    refine if_neg ?_
    simp only [ne_eq, not_not]
    exact hz

/-- Witness for C3: the check `create post status 201` with 5 passes and 95
fails has pass rate `1/20`, and a check with zero observations has pass
rate `1`. -/
theorem C3_check_pass_rate_witness :
    (("create post status 201",
        (⟨5, 95, 1/20⟩ : CheckRec)) ∈ extract_root_group_checks
          (.obj [("root_group", .obj [("checks", .obj
            [("create post status 201",
              .obj [("passes", .num 5), ("fails", .num 95)]),
             ("idle check", .obj [])])])])) ∧
    ((0 : ℚ) < (5 : ℚ) + 95 → (1/20 : ℚ) = 5 / ((5 : ℚ) + 95)) ∧
    ((5 : ℚ) + 95 = 0 → (1/20 : ℚ) = 1) := by
  have hmem : ("create post status 201", (⟨5, 95, 1/20⟩ : CheckRec))
      ∈ extract_root_group_checks
        (.obj [("root_group", .obj [("checks", .obj
          [("create post status 201",
            .obj [("passes", .num 5), ("fails", .num 95)]),
           ("idle check", .obj [])])])]) := by decide
  exact ⟨hmem, (C3_check_pass_rate _ _ _ hmem).1, (C3_check_pass_rate _ _ _ hmem).2⟩

/-! ## Lemmas about the threshold regex parser -/

lemma isPySpace_eq_false_of_digitsDot {c : Char} (h : digitsDot c = true) :
    isPySpace c = false := by
  by_contra hsp
  rw [Bool.not_eq_false] at hsp
  simp only [isPySpace, Bool.or_eq_true, decide_eq_true_eq] at hsp
  rcases hsp with ((((rfl | rfl) | rfl) | rfl) | rfl) | rfl <;>
    exact absurd h (by decide)

lemma dropWhile_space_of_digitsDot {ds : List Char} (h : ds.all digitsDot = true) :
    ds.dropWhile isPySpace = ds := by
  cases ds with
  | nil => rfl
  | cons c cs =>
      have hc : digitsDot c = true := by
        have h' := h
        simp only [List.all_cons, Bool.and_eq_true] at h'
        exact h'.1
      exact List.dropWhile_cons_of_neg (by simp [isPySpace_eq_false_of_digitsDot hc])

/-- On a well-formed capture body (`[\d.]+` characters only, non-empty), the
regex search anchored by `rate<` returns exactly that body. -/
lemma searchRateLt_prefix (xs : String) (hne : xs.data ≠ [])
    (hall : xs.data.all digitsDot = true) :
    searchRateLt ("rate<" ++ xs) = some xs := by
  have hdata : ("rate<" ++ xs).data
      = 'r' :: 'a' :: 't' :: 'e' :: '<' :: xs.data := by
    rw [String.data_append]
    rfl
  have hstrip : stripCI ['r', 'a', 't', 'e'] ('r' :: 'a' :: 't' :: 'e' :: '<' :: xs.data)
      = some ('<' :: xs.data) := rfl
  have hmatch : matchRateLtAt ('r' :: 'a' :: 't' :: 'e' :: '<' :: xs.data) = some xs.data := by
    unfold matchRateLtAt
    rw [hstrip]
    show (match ('<' :: xs.data).dropWhile isPySpace with
          | '<' :: rest2 =>
              let rest3 := rest2.dropWhile isPySpace
              let cap := rest3.takeWhile digitsDot
              if cap.isEmpty then none else some cap
          | _ => none) = some xs.data
    rw [List.dropWhile_cons_of_neg (by simp [isPySpace])]
    show (let rest3 := List.dropWhile isPySpace xs.data
          let cap := List.takeWhile digitsDot rest3
          if cap.isEmpty = true then none else some cap) = some xs.data
    rw [dropWhile_space_of_digitsDot hall]
    show (if (List.takeWhile digitsDot xs.data).isEmpty = true then none
          else some (List.takeWhile digitsDot xs.data)) = some xs.data
    rw [List.takeWhile_eq_self_iff.mpr (by simpa [List.all_eq_true] using hall)]
    simp [List.isEmpty_iff, hne]
  unfold searchRateLt
  rw [hdata]
  unfold searchRateLtAux
  rw [hmatch]

/-- A successful `pyParseFloat` certifies that the string is non-empty and
drawn from `[\d.]`. -/
lemma pyParseFloat_shape {xs : String} {X : ℚ} (h : pyParseFloat xs = some X) :
    xs.data ≠ [] ∧ xs.data.all digitsDot = true := by
  simp only [pyParseFloat] at h
  split_ifs at h with hguard
  have h1 := (Bool.and_eq_true _ _).mp ((Bool.and_eq_true _ _).mp hguard).1
  refine ⟨?_, h1.1⟩
  intro hnil
  rw [hnil] at h1
  exact absurd h1.2 (by decide)

/-- A run summary declaring the single `http_req_failed` threshold
expression `expr` (with arbitrary threshold stats `v`). -/
def thresholdSummary (expr : String) (v : JVal) : JVal :=
  .obj [("metrics", .obj [("http_req_failed", .obj [("thresholds", .obj [(expr, v)])])])]

/-- C4: threshold resolution. A summary-declared `rate < X` threshold is
parsed back exactly and wins over the profile default; with no declaration
the resolved threshold is the profile-table default, `0.08` for unknown
profiles. Conjuncts: (1) a parsed declaration is used verbatim by the
signal builder; (2) with no parse the profile default (0.08 fallback) is
used; (3) any declared expression `rate<X` with a well-formed numeral body
parses to exactly its float value; (4) `rate<0.10` recovers exactly 0.10;
(5-6) `rate<0.08` beats profile "low" whose default is 0.05; (7) unknown
profile with no declaration resolves to 0.08. -/
theorem C4_threshold_resolution (summary : JVal) (profile : String)
    (loki : LokiPayload) :
    (∀ t, parse_failure_threshold_from_summary summary = some t →
      (build_rate_limit_signals summary profile loki).http_req_failed_threshold = t) ∧
    (parse_failure_threshold_from_summary summary = none →
      (build_rate_limit_signals summary profile loki).http_req_failed_threshold
        = (PROFILE_FAILURE_THRESHOLDS.lookup profile).getD (8/100)) ∧
    (∀ (xs : String) (X : ℚ) (v : JVal), pyParseFloat xs = some X →
      parse_failure_threshold_from_summary (thresholdSummary ("rate<" ++ xs) v)
        = some X) ∧
    parse_failure_threshold_from_summary (thresholdSummary "rate<0.10" (.obj []))
        = some (10/100) ∧
    (build_rate_limit_signals (thresholdSummary "rate<0.08" (.obj [])) "low" loki).http_req_failed_threshold
        = 8/100 ∧
    (PROFILE_FAILURE_THRESHOLDS.lookup "low").getD (8/100) = 5/100 ∧
    (build_rate_limit_signals (.obj []) "unknown-profile" loki).http_req_failed_threshold
        = 8/100 := by
  refine ⟨?_, ?_, ?_, ?_, ?_, ?_, ?_⟩
  · intro t h
    simp [build_rate_limit_signals, h]
  · intro h
    simp [build_rate_limit_signals, h, profileThresholdD]
  · intro xs X v hparse
    obtain ⟨hne, hall⟩ := pyParseFloat_shape hparse
    have hsearch := searchRateLt_prefix xs hne hall
    simp [parse_failure_threshold_from_summary, thresholdSummary, pyOr, pyGet,
      pyGetD, jLookup, JVal.truthy, List.findSome?, hsearch, hparse]
  · decide
  · rfl
  · decide
  · rfl

/-- Witness for C4's conditional conjuncts at concrete inputs. -/
theorem C4_threshold_resolution_witness :
    parse_failure_threshold_from_summary (thresholdSummary "rate<0.10" (.obj []))
        = some (10/100) ∧
    (build_rate_limit_signals (thresholdSummary "rate<0.10" (.obj [])) "low"
        emptyLokiPayload).http_req_failed_threshold = 10/100 ∧
    pyParseFloat "0.10" = some (10/100) ∧
    parse_failure_threshold_from_summary (thresholdSummary ("rate<" ++ "0.10") (.obj []))
        = some (10/100) :=
  ⟨by decide,
   (C4_threshold_resolution (thresholdSummary "rate<0.10" (.obj [])) "low"
      emptyLokiPayload).1 (10/100) (by decide),
   by decide,
   ((C4_threshold_resolution (.obj []) "low" emptyLokiPayload).2.2.1 "0.10" (10/100)
      (.obj []) (by decide))⟩

/-! ## Lemmas connecting the signal builder to the policy engine -/

/-- The endpoint chain of source lines 325-333 viewed as the static
name-to-endpoint table it encodes. -/
def WRITE_CHECK_ENDPOINT : List (String × String) :=
  [("create post status 201", "POST /api/posts"),
   ("comment status ok", "POST /api/posts/:id/comments"),
   ("friend request status acceptable", "POST /api/friends/requests/:id"),
   ("dm send status acceptable", "POST /api/conversations/:id/messages")]

lemma lookup_mem {α β : Type} [BEq α] [LawfulBEq α] {l : List (α × β)} {k : α} {v : β}
    (h : l.lookup k = some v) : (k, v) ∈ l := by
  induction l with
  | nil => cases h
  | cons p ps ih =>
      obtain ⟨a, b⟩ := p
      cases hbeq : k == a with
      | true =>
          have ha : k = a := eq_of_beq hbeq
          have hv : b = v := by
            have h' := h
            simp only [List.lookup, hbeq] at h'
            exact Option.some.inj h'
          subst ha
          subst hv
          exact List.mem_cons_self _ _
      | false =>
          have h' := h
          simp only [List.lookup, hbeq] at h'
          exact List.mem_cons_of_mem _ (ih h')

lemma mem_inferEndpoints_of_table {sev : List String} {name endpoint : String}
    (hmap : (name, endpoint) ∈
      [("create post status 201", "POST /api/posts"),
       ("comment status ok", "POST /api/posts/:id/comments"),
       ("friend request status acceptable", "POST /api/friends/requests/:id"),
       ("dm send status acceptable", "POST /api/conversations/:id/messages")])
    (h : name ∈ sev) : endpoint ∈ inferEndpoints sev := by
  have hc : sev.contains name = true := by simpa using h
  fin_cases hmap <;>
  · unfold inferEndpoints
    rw [if_pos hc]
    simp

lemma strOccurs_checkReason_name (n : String) (pr : ℚ) :
    strOccurs (checkReason n pr) n :=
  ⟨"Write check \x27", "\x27 pass rate " ++ fmtPercent 2 pr ++ " < 20%",
   by simp [checkReason, String.append_assoc]⟩

lemma strOccurs_checkReason_rate (n : String) (pr : ℚ) :
    strOccurs (checkReason n pr) (fmtPercent 2 pr) :=
  ⟨"Write check \x27" ++ n ++ "\x27 pass rate ", " < 20%",
   by simp [checkReason, String.append_assoc]⟩

lemma deterministicPass_critical_of_check {rls : RateLimitSignals} {profile : String}
    {c : CriticalCheck} (hc : c ∈ rls.critical_write_checks)
    (hr : c.pass_rate < 20/100) :
    (deterministicPass rls profile).1 = "CRITICAL" ∧
      checkReason c.check_name c.pass_rate ∈ (deterministicPass rls profile).2 :=
  detStep_reason_of_mem hc hr

lemma scan_empty_of_absent (pc : List (String × CheckRec))
    (h : ∀ name ∈ CANONICAL_WRITE_CHECKS, pc.lookup name = none) :
    writeCheckScan pc = ([], []) := by
  have h1 := h "create post status 201" (by decide)
  have h2 := h "comment status ok" (by decide)
  have h3 := h "friend request status acceptable" (by decide)
  have h4 := h "dm send status acceptable" (by decide)
  simp [writeCheckScan, CANONICAL_WRITE_CHECKS, scanStep, h1, h2, h3, h4]

/-- C5: every canonical write-path check present in the summary with pass
rate below 20% is recorded among the critical write checks, its fixed
endpoint from the static name-to-endpoint table appears in the inferred
throttled-endpoint list, and the deterministic status escalates to
CRITICAL with a reason naming the check and its pass rate (formatted
`%.2%`); a check that is not severely constrained maps no endpoint into
that list. Both conjuncts quantify over the whole static table (whose
keys are exactly the canonical write-path check names). -/
theorem C5_severely_constrained_check (summary : JVal) (profile : String)
    (loki : LokiPayload) (a : Analysis) :
    (∀ (name endpoint : String) (rec : CheckRec),
      WRITE_CHECK_ENDPOINT.lookup name = some endpoint →
      (extract_root_group_checks summary).lookup name = some rec →
      rec.pass_rate < 20/100 →
      ((⟨name, rec.passes, rec.fails, rec.pass_rate⟩ : CriticalCheck)
          ∈ (build_rate_limit_signals summary profile loki).critical_write_checks ∧
       endpoint
          ∈ (build_rate_limit_signals summary profile loki).likely_rate_limited_endpoints ∧
       (apply_status_policy a (build_rate_limit_signals summary profile loki)
          profile).deterministic_status = some "CRITICAL" ∧
       ∃ reason ∈ (apply_status_policy a (build_rate_limit_signals summary profile loki)
          profile).deterministic_reasons,
         strOccurs reason name ∧
         strOccurs reason (fmtPercent 2 rec.pass_rate))) ∧
    (∀ name endpoint : String, WRITE_CHECK_ENDPOINT.lookup name = some endpoint →
      (∀ rec : CheckRec, (extract_root_group_checks summary).lookup name = some rec →
        ¬ rec.pass_rate < 20/100) →
      endpoint ∉ (build_rate_limit_signals summary profile loki).likely_rate_limited_endpoints) := by
  have hcw : (build_rate_limit_signals summary profile loki).critical_write_checks
      = (writeCheckScan (extract_root_group_checks summary)).1 := rfl
  have hep : (build_rate_limit_signals summary profile loki).likely_rate_limited_endpoints
      = inferEndpoints (writeCheckScan (extract_root_group_checks summary)).2 := rfl
  constructor
  · intro name endpoint rec hlook hrec hlt
    have hmap : (name, endpoint) ∈
        [("create post status 201", "POST /api/posts"),
         ("comment status ok", "POST /api/posts/:id/comments"),
         ("friend request status acceptable", "POST /api/friends/requests/:id"),
         ("dm send status acceptable", "POST /api/conversations/:id/messages")] := by
      simpa [WRITE_CHECK_ENDPOINT] using lookup_mem hlook
    have hcname : name ∈ CANONICAL_WRITE_CHECKS := by
      fin_cases hmap <;> decide
    have hmemcw : (⟨name, rec.passes, rec.fails, rec.pass_rate⟩ :
        CriticalCheck) ∈ (writeCheckScan (extract_root_group_checks summary)).1 :=
      scan_cw_mem _ hcname hrec
    have hsev : name ∈ (writeCheckScan (extract_root_group_checks summary)).2 :=
      (scan_sev_mem_iff _ _).mpr ⟨hcname, rec, hrec, hlt⟩
    have hdet := @deterministicPass_critical_of_check
      (build_rate_limit_signals summary profile loki) profile
      ⟨name, rec.passes, rec.fails, rec.pass_rate⟩
      (by rw [hcw]; exact hmemcw) hlt
    refine ⟨by rw [hcw]; exact hmemcw,
      by rw [hep]; exact mem_inferEndpoints_of_table hmap hsev,
      by simp [apply_status_policy, hdet.1], ?_⟩
    exact ⟨checkReason name rec.pass_rate,
      by simpa [apply_status_policy] using hdet.2,
      strOccurs_checkReason_name _ _, strOccurs_checkReason_rate _ _⟩
  · intro name endpoint hlook hnot
    rw [hep]
    have hmap : (name, endpoint) ∈
        [("create post status 201", "POST /api/posts"),
         ("comment status ok", "POST /api/posts/:id/comments"),
         ("friend request status acceptable", "POST /api/friends/requests/:id"),
         ("dm send status acceptable", "POST /api/conversations/:id/messages")] := by
      simpa [WRITE_CHECK_ENDPOINT] using lookup_mem hlook
    refine notmem_inferEndpoints _ name endpoint hmap ?_
    intro hsev
    obtain ⟨-, rec, hrec, hlt⟩ := (scan_sev_mem_iff _ _).mp hsev
    exact hnot rec hrec hlt

/-- C10: a canonical write-path check name absent from the summary's
per-check counts yields no `critical_write_checks` entry and maps no
endpoint into the throttled-endpoint list; when every canonical check is
absent and no failure rate was observed, the deterministic status stays
HEALTHY — an unobserved check can never by itself escalate it. -/
theorem C10_absent_check_contributes_nothing (summary : JVal) (profile : String)
    (loki : LokiPayload) :
    (∀ name, name ∈ CANONICAL_WRITE_CHECKS →
      (extract_root_group_checks summary).lookup name = none →
      (∀ c ∈ (build_rate_limit_signals summary profile loki).critical_write_checks,
        c.check_name ≠ name) ∧
      (∀ endpoint, WRITE_CHECK_ENDPOINT.lookup name = some endpoint →
        endpoint ∉ (build_rate_limit_signals summary profile loki).likely_rate_limited_endpoints)) ∧
    ((∀ name ∈ CANONICAL_WRITE_CHECKS, (extract_root_group_checks summary).lookup name = none) →
      (build_rate_limit_signals summary profile loki).critical_write_checks = [] ∧
      (build_rate_limit_signals summary profile loki).likely_rate_limited_endpoints = [] ∧
      ((build_rate_limit_signals summary profile loki).http_req_failed_rate = none →
        ∀ a : Analysis,
          (apply_status_policy a (build_rate_limit_signals summary profile loki)
            profile).deterministic_status = some "HEALTHY")) := by
  have hcw : (build_rate_limit_signals summary profile loki).critical_write_checks
      = (writeCheckScan (extract_root_group_checks summary)).1 := rfl
  have hep : (build_rate_limit_signals summary profile loki).likely_rate_limited_endpoints
      = inferEndpoints (writeCheckScan (extract_root_group_checks summary)).2 := rfl
  constructor
  · intro name hname habsent
    constructor
    · intro c hc hcn
      rw [hcw] at hc
      rcases scan_cw_src _ hc with h | ⟨-, hrec⟩
      · cases h
      · rw [hcn, habsent] at hrec
        cases hrec
    · intro endpoint hlook
      rw [hep]
      have hmap : (name, endpoint) ∈
          [("create post status 201", "POST /api/posts"),
           ("comment status ok", "POST /api/posts/:id/comments"),
           ("friend request status acceptable", "POST /api/friends/requests/:id"),
           ("dm send status acceptable", "POST /api/conversations/:id/messages")] := by
        simpa [WRITE_CHECK_ENDPOINT] using lookup_mem hlook
      refine notmem_inferEndpoints _ name endpoint hmap ?_
      intro hsev
      obtain ⟨-, rec, hrec, -⟩ := (scan_sev_mem_iff _ _).mp hsev
      rw [habsent] at hrec
      cases hrec
  · intro hall
    have hscan := scan_empty_of_absent _ hall
    have hcw' : (build_rate_limit_signals summary profile loki).critical_write_checks = [] := by
      rw [hcw, hscan]
    have hep' : (build_rate_limit_signals summary profile loki).likely_rate_limited_endpoints = [] := by
      rw [hep, hscan]
      rfl
    refine ⟨hcw', hep', ?_⟩
    intro hrate a
    have hpass : deterministicPass (build_rate_limit_signals summary profile loki) profile
        = ("HEALTHY", []) := by
      simp [deterministicPass, hrate, hcw']
    simp [apply_status_policy, hpass]

/-- A run summary whose `create post status 201` check has 5 passes and 95
fails, and whose `dm send status acceptable` check has 1 pass and 9
fails. -/
def writeSummary : JVal :=
  .obj [("root_group", .obj [("checks", .obj
    [("create post status 201", .obj [("passes", .num 5), ("fails", .num 95)]),
     ("dm send status acceptable", .obj [("passes", .num 1), ("fails", .num 9)])])])]

/-- Witness for C5: the scenario of the spec, `create post status 201` with
passes=5, fails=95 (pass rate 5%), and a second table entry,
`dm send status acceptable` with passes=1, fails=9 (pass rate 10%). -/
theorem C5_severely_constrained_check_witness :
    WRITE_CHECK_ENDPOINT.lookup "create post status 201" = some "POST /api/posts" ∧
    (extract_root_group_checks writeSummary).lookup "create post status 201"
        = some (⟨5, 95, 1/20⟩ : CheckRec) ∧
    (⟨5, 95, 1/20⟩ : CheckRec).pass_rate < 20/100 ∧
    ((⟨"create post status 201", (⟨5, 95, 1/20⟩ : CheckRec).passes,
        (⟨5, 95, 1/20⟩ : CheckRec).fails, (⟨5, 95, 1/20⟩ : CheckRec).pass_rate⟩ :
          CriticalCheck)
        ∈ (build_rate_limit_signals writeSummary "low" emptyLokiPayload).critical_write_checks ∧
      "POST /api/posts"
        ∈ (build_rate_limit_signals writeSummary "low" emptyLokiPayload).likely_rate_limited_endpoints ∧
      (apply_status_policy {} (build_rate_limit_signals writeSummary "low" emptyLokiPayload)
        "low").deterministic_status = some "CRITICAL" ∧
      ∃ reason ∈ (apply_status_policy {} (build_rate_limit_signals writeSummary "low" emptyLokiPayload)
        "low").deterministic_reasons,
        strOccurs reason "create post status 201" ∧
        strOccurs reason (fmtPercent 2 (⟨5, 95, 1/20⟩ : CheckRec).pass_rate)) ∧
    WRITE_CHECK_ENDPOINT.lookup "dm send status acceptable"
        = some "POST /api/conversations/:id/messages" ∧
    (extract_root_group_checks writeSummary).lookup "dm send status acceptable"
        = some (⟨1, 9, 1/10⟩ : CheckRec) ∧
    (⟨1, 9, 1/10⟩ : CheckRec).pass_rate < 20/100 ∧
    ((⟨"dm send status acceptable", (⟨1, 9, 1/10⟩ : CheckRec).passes,
        (⟨1, 9, 1/10⟩ : CheckRec).fails, (⟨1, 9, 1/10⟩ : CheckRec).pass_rate⟩ :
          CriticalCheck)
        ∈ (build_rate_limit_signals writeSummary "low" emptyLokiPayload).critical_write_checks ∧
      "POST /api/conversations/:id/messages"
        ∈ (build_rate_limit_signals writeSummary "low" emptyLokiPayload).likely_rate_limited_endpoints ∧
      (apply_status_policy {} (build_rate_limit_signals writeSummary "low" emptyLokiPayload)
        "low").deterministic_status = some "CRITICAL" ∧
      ∃ reason ∈ (apply_status_policy {} (build_rate_limit_signals writeSummary "low" emptyLokiPayload)
        "low").deterministic_reasons,
        strOccurs reason "dm send status acceptable" ∧
        strOccurs reason (fmtPercent 2 (⟨1, 9, 1/10⟩ : CheckRec).pass_rate)) :=
  ⟨by decide, by decide, by decide,
   (C5_severely_constrained_check writeSummary "low" emptyLokiPayload {}).1
     "create post status 201" "POST /api/posts" ⟨5, 95, 1/20⟩
     (by decide) (by decide) (by decide),
   by decide, by decide, by decide,
   (C5_severely_constrained_check writeSummary "low" emptyLokiPayload {}).1
     "dm send status acceptable" "POST /api/conversations/:id/messages" ⟨1, 9, 1/10⟩
     (by decide) (by decide) (by decide)⟩

/-- Witness for C10: the empty summary records no canonical checks; with no
observed failure rate the deterministic status stays HEALTHY. -/
theorem C10_absent_check_contributes_nothing_witness :
    "create post status 201" ∈ CANONICAL_WRITE_CHECKS ∧
    (extract_root_group_checks (.obj [])).lookup "create post status 201" = none ∧
    ((∀ c ∈ (build_rate_limit_signals (.obj []) "medium" emptyLokiPayload).critical_write_checks,
        c.check_name ≠ "create post status 201") ∧
     (∀ endpoint, WRITE_CHECK_ENDPOINT.lookup "create post status 201" = some endpoint →
        endpoint ∉ (build_rate_limit_signals (.obj []) "medium"
          emptyLokiPayload).likely_rate_limited_endpoints)) ∧
    ((build_rate_limit_signals (.obj []) "medium" emptyLokiPayload).critical_write_checks = [] ∧
     (build_rate_limit_signals (.obj []) "medium" emptyLokiPayload).likely_rate_limited_endpoints = [] ∧
     ((build_rate_limit_signals (.obj []) "medium" emptyLokiPayload).http_req_failed_rate = none →
       ∀ a : Analysis,
         (apply_status_policy a (build_rate_limit_signals (.obj []) "medium" emptyLokiPayload)
           "medium").deterministic_status = some "HEALTHY")) :=
  ⟨by decide, rfl,
   (C10_absent_check_contributes_nothing (.obj []) "medium" emptyLokiPayload).1
     "create post status 201" (by decide) rfl,
   (C10_absent_check_contributes_nothing (.obj []) "medium" emptyLokiPayload).2
     (fun _ _ => rfl)⟩

/-! ## Claim C9: the report renderers' list sections -/

lemma listOccurs_self {α : Type} (l : List α) : listOccurs l l :=
  ⟨[], [], by simp⟩

lemma listOccurs_appendL {α : Type} (x : List α) {l n : List α}
    (h : listOccurs l n) : listOccurs (x ++ l) n := by
  obtain ⟨s, t, rfl⟩ := h
  exact ⟨x ++ s, t, by simp [List.append_assoc]⟩

lemma listOccurs_appendR {α : Type} (y : List α) {l n : List α}
    (h : listOccurs l n) : listOccurs (l ++ y) n := by
  obtain ⟨s, t, rfl⟩ := h
  exact ⟨s, t ++ y, by simp [List.append_assoc]⟩

lemma append_ne_empty_of_right (s : String) {t : String} (ht : t ≠ "") :
    s ++ t ≠ "" := by
  intro h
  apply ht
  have hd := congrArg String.data h
  rw [String.data_append] at hd
  exact String.ext (List.append_eq_nil.mp hd).2

/-- Highlights with every field underivable. -/
def emptyHighlights : Highlights := ⟨none, none, none, none, none⟩

/-- C9 (amended): the Markdown and plain-text renderers render all four of
the findings, bottlenecks, likely-causes and next-actions lists (each as
`- None` when empty); the HTML renderer renders only the findings and
next-actions lists (each as `<li>None</li>` when empty) — it omits
bottlenecks and likely-causes (see the counterexample). -/
theorem C9_renderers_list_sections (run_dir profile : String) (metadata : JVal)
    (health_map : List (String × Health)) (highlights : Highlights)
    (analysis : Analysis) (loki : LokiPayload) (now : String) :
    strOccurs (render_report_markdown run_dir profile metadata health_map highlights analysis now)
      ("## Findings\n" ++ section_items analysis.findings) ∧
    strOccurs (render_report_markdown run_dir profile metadata health_map highlights analysis now)
      ("## Bottlenecks\n" ++ section_items analysis.bottlenecks) ∧
    strOccurs (render_report_markdown run_dir profile metadata health_map highlights analysis now)
      ("## Likely Causes\n" ++ section_items analysis.likely_causes) ∧
    strOccurs (render_report_markdown run_dir profile metadata health_map highlights analysis now)
      ("## Next Actions\n" ++ section_items analysis.next_actions) ∧
    strOccurs (render_report_text run_dir profile metadata health_map highlights analysis now)
      (pyJoin "\n" (blockLines "Findings" analysis.findings)) ∧
    strOccurs (render_report_text run_dir profile metadata health_map highlights analysis now)
      (pyJoin "\n" (blockLines "Bottlenecks" analysis.bottlenecks)) ∧
    strOccurs (render_report_text run_dir profile metadata health_map highlights analysis now)
      (pyJoin "\n" (blockLines "Likely Causes" analysis.likely_causes)) ∧
    strOccurs (render_report_text run_dir profile metadata health_map highlights analysis now)
      (pyJoin "\n" (blockLines "Next Actions" analysis.next_actions)) ∧
    strOccurs (render_report_html run_dir profile metadata health_map highlights analysis loki now)
      ("<h2>Findings</h2><ul>" ++ li_items analysis.findings ++ "</ul>") ∧
    strOccurs (render_report_html run_dir profile metadata health_map highlights analysis loki now)
      ("<h2>Next Actions</h2><ul>" ++ li_items analysis.next_actions ++ "</ul>") ∧
    section_items [] = "- None" ∧
    (∀ t : String, blockLines t [] = ["", t, "- None"]) ∧
    li_items [] = "<li>None</li>" := by
  refine ⟨?_, ?_, ?_, ?_, ?_, ?_, ?_, ?_, ?_, ?_, rfl, fun t => rfl, rfl⟩
  · simp only [render_report_markdown]
    repeat
      first
        | exact strOccurs_concat_head2 _ _ _
        | apply strOccurs_concat_tail
  · simp only [render_report_markdown]
    repeat
      first
        | exact strOccurs_concat_head2 _ _ _
        | apply strOccurs_concat_tail
  · simp only [render_report_markdown]
    repeat
      first
        | exact strOccurs_concat_head2 _ _ _
        | apply strOccurs_concat_tail
  · simp only [render_report_markdown]
    repeat
      first
        | exact strOccurs_concat_head2 _ _ _
        | apply strOccurs_concat_tail
  · simp only [render_report_text]
    apply strOccurs_append_right
    apply strOccurs_pyJoin _ (by simp [blockLines])
    repeat
      first
        | exact listOccurs_appendL _ (listOccurs_self _)
        | apply listOccurs_appendR
  · simp only [render_report_text]
    apply strOccurs_append_right
    apply strOccurs_pyJoin _ (by simp [blockLines])
    repeat
      first
        | exact listOccurs_appendL _ (listOccurs_self _)
        | apply listOccurs_appendR
  · simp only [render_report_text]
    apply strOccurs_append_right
    apply strOccurs_pyJoin _ (by simp [blockLines])
    repeat
      first
        | exact listOccurs_appendL _ (listOccurs_self _)
        | apply listOccurs_appendR
  · simp only [render_report_text]
    apply strOccurs_append_right
    apply strOccurs_pyJoin _ (by simp [blockLines])
    repeat
      first
        | exact listOccurs_appendL _ (listOccurs_self _)
        | apply listOccurs_appendR
  · simp only [render_report_html]
    repeat
      first
        | exact strOccurs_concat_head3 _ _ _ _
        | apply strOccurs_concat_tail
  · simp only [render_report_html]
    repeat
      first
        | exact strOccurs_concat_head3 _ _ _ _
        | apply strOccurs_concat_tail

/-- C9 (counterexample to the claim as stated): the HTML renderer's output
is identical on two analyses that differ only in their (non-empty versus
empty) bottlenecks and likely-causes lists, so it cannot be rendering those
two lists at all — contradicting the claim that each renderer renders all
four lists with "None" for the empty ones. -/
theorem C9_html_omits_lists_cex :
    ({ bottlenecks := ["sentinel bottleneck"],
       likely_causes := ["sentinel cause"] } : Analysis).bottlenecks ≠ [] ∧
    ({ bottlenecks := ["sentinel bottleneck"],
       likely_causes := ["sentinel cause"] } : Analysis).likely_causes ≠ [] ∧
    render_report_html "/run" "low" (.obj []) [] emptyHighlights
        { bottlenecks := ["sentinel bottleneck"], likely_causes := ["sentinel cause"] }
        emptyLokiPayload "now"
      = render_report_html "/run" "low" (.obj []) [] emptyHighlights {}
        emptyLokiPayload "now" :=
  ⟨by decide, by decide, rfl⟩

/-! ## Claim C6: pipeline resilience when every source collector fails -/

/-- C6 (amended): when all three source collectors fail (missing/invalid
run summary, network errors on the metrics and log stores) and the
assessment endpoint yields no usable analysis (so the templated fallback
applies), the pipeline still produces an analysis record with status
WARNING whose findings are non-empty and name each failed source, and all
three report documents are rendered (non-empty, with no error path). -/
theorem C6_pipeline_fallback_resilience (metadata : JVal)
    (profile run_dir now ws we : String) :
    (pipeline_core none "/run/summary.json" metadata profile
        (fun _ => .error "network error") (fun _ => .error "network error")
        none ⟨"degraded", "Ollama request failure: network error"⟩
        run_dir now ws we).analysis.status = some "WARNING" ∧
    (pipeline_core none "/run/summary.json" metadata profile
        (fun _ => .error "network error") (fun _ => .error "network error")
        none ⟨"degraded", "Ollama request failure: network error"⟩
        run_dir now ws we).analysis.findings
      = ["k6: Missing or invalid /run/summary.json",
         "prometheus: Prometheus query failure: network error",
         "loki: Loki query failure: network error",
         "ollama: Ollama request failure: network error"] ∧
    (∃ f ∈ (pipeline_core none "/run/summary.json" metadata profile
        (fun _ => .error "network error") (fun _ => .error "network error")
        none ⟨"degraded", "Ollama request failure: network error"⟩
        run_dir now ws we).analysis.findings, strOccurs f "k6") ∧
    (∃ f ∈ (pipeline_core none "/run/summary.json" metadata profile
        (fun _ => .error "network error") (fun _ => .error "network error")
        none ⟨"degraded", "Ollama request failure: network error"⟩
        run_dir now ws we).analysis.findings, strOccurs f "prometheus") ∧
    (∃ f ∈ (pipeline_core none "/run/summary.json" metadata profile
        (fun _ => .error "network error") (fun _ => .error "network error")
        none ⟨"degraded", "Ollama request failure: network error"⟩
        run_dir now ws we).analysis.findings, strOccurs f "loki") ∧
    (pipeline_core none "/run/summary.json" metadata profile
        (fun _ => .error "network error") (fun _ => .error "network error")
        none ⟨"degraded", "Ollama request failure: network error"⟩
        run_dir now ws we).report_html ≠ "" ∧
    (pipeline_core none "/run/summary.json" metadata profile
        (fun _ => .error "network error") (fun _ => .error "network error")
        none ⟨"degraded", "Ollama request failure: network error"⟩
        run_dir now ws we).report_md ≠ "" ∧
    (pipeline_core none "/run/summary.json" metadata profile
        (fun _ => .error "network error") (fun _ => .error "network error")
        none ⟨"degraded", "Ollama request failure: network error"⟩
        run_dir now ws we).report_txt ≠ "" := by
  have hfind : (pipeline_core none "/run/summary.json" metadata profile
      (fun _ => .error "network error") (fun _ => .error "network error")
      none ⟨"degraded", "Ollama request failure: network error"⟩
      run_dir now ws we).analysis.findings
    = ["k6: Missing or invalid /run/summary.json",
       "prometheus: Prometheus query failure: network error",
       "loki: Loki query failure: network error",
       "ollama: Ollama request failure: network error"] := rfl
  refine ⟨rfl, hfind, ?_, ?_, ?_, ?_, ?_, ?_⟩
  · rw [hfind]
    exact ⟨"k6: Missing or invalid /run/summary.json", by decide,
      ⟨"", ": Missing or invalid /run/summary.json", by decide⟩⟩
  · rw [hfind]
    exact ⟨"prometheus: Prometheus query failure: network error", by decide,
      ⟨"", ": Prometheus query failure: network error", by decide⟩⟩
  · rw [hfind]
    exact ⟨"loki: Loki query failure: network error", by decide,
      ⟨"", ": Loki query failure: network error", by decide⟩⟩
  · exact append_ne_empty_of_left (by decide) _
  · exact append_ne_empty_of_left (by decide) _
  · exact append_ne_empty_of_right _ (by decide)

/-- C6 (counterexample to the claim as stated): with all three source
collectors failing but the model returning a usable HEALTHY analysis with
no findings, the persisted status is HEALTHY (less severe than WARNING) and
the findings list is empty — the fallback that names the failed sources
never runs, because the model output takes precedence. -/
theorem C6_model_overrides_fallback_cex :
    (pipeline_core none "/run/summary.json" (.obj []) "medium"
        (fun _ => .error "network error") (fun _ => .error "network error")
        (some { status := some "HEALTHY" }) Health.ok
        "/run" "now" "ws" "we").analysis.data_source_health
      = [("k6", ⟨"degraded", "Missing or invalid /run/summary.json"⟩),
         ("prometheus", ⟨"degraded", "Prometheus query failure: network error"⟩),
         ("loki", ⟨"degraded", "Loki query failure: network error"⟩),
         ("ollama", Health.ok)] ∧
    (pipeline_core none "/run/summary.json" (.obj []) "medium"
        (fun _ => .error "network error") (fun _ => .error "network error")
        (some { status := some "HEALTHY" }) Health.ok
        "/run" "now" "ws" "we").analysis.status = some "HEALTHY" ∧
    (pipeline_core none "/run/summary.json" (.obj []) "medium"
        (fun _ => .error "network error") (fun _ => .error "network error")
        (some { status := some "HEALTHY" }) Health.ok
        "/run" "now" "ws" "we").analysis.findings = [] :=
  ⟨rfl, rfl, rfl⟩

end StressReport
